import Mathlib

/-!
Verification of the HAFamilyLink integration core against its design spec.

The Python sources under `custom_components/familylink/` are shallowly
embedded below: pure parsing helpers become Lean functions on a JSON-like
value type, fallible code returns `Except`, and the coordinator's update
cycle is a function of the per-fetch outcomes.  The repository's
`exceptions.py` module is not present in the source tree (only its callers
are), so the exception taxonomy is modelled from the spec where noted.
-/

set_option maxRecDepth 4096

namespace FamilyLink

/-- A decoded JSON / Python value as produced by `resp.json()` in
`client/api.py`.  `int` and `flt` are kept separate because Python's
`isinstance(x, int)` distinguishes them; `bool` is separate because Python
treats `True == 1` but `repr`s differently.  Rationals stand in for IEEE
floats: every comparison the parsers perform on them is order/equality
based, so the embedding is faithful for the finite values appearing here. -/
inductive JValue where
  | null
  | bool (b : Bool)
  | int (n : Int)
  | flt (q : ℚ)
  | str (s : String)
  | arr (xs : List JValue)
  | obj (fields : List (String × JValue))
deriving Repr

/-- Python exceptions relevant to the embedded code.  The first six mirror
the integration's own taxonomy.

Modelled from the spec: `custom_components/familylink/exceptions.py` is
missing from the source tree (only importers reference it).  Spec §7 gives
the taxonomy; the import sites show `SessionExpiredError`,
`TransientNetworkError`, `NetworkError`, `AuthenticationError`,
`DeviceControlError` and the base `FamilyLinkException`.  All of them are
modelled as subclasses of `FamilyLinkException`; Python builtins
(`TypeError`, …) are not. -/
inductive Exc where
  | sessionExpired (msg : String)
  | transientNetwork (msg : String)
  | networkError (msg : String)
  | deviceControl (msg : String)
  | authError (msg : String)
  | familyLinkBase (msg : String)
  | typeError
  | attributeError
  | valueError
  | overflowError
  | keyError
deriving Repr, DecidableEq

/-- Whether an exception is an instance of `FamilyLinkException`
(spec-modelled subclass relation, see `Exc`). -/
def Exc.isFamilyLink : Exc → Bool
  | .sessionExpired _ | .transientNetwork _ | .networkError _
  | .deviceControl _ | .authError _ | .familyLinkBase _ => true
  | _ => false

/-- `str(err)` for the modelled exceptions (the message they carry). -/
def Exc.msg : Exc → String
  | .sessionExpired m | .transientNetwork m | .networkError m
  | .deviceControl m | .authError m | .familyLinkBase m => m
  | .typeError => "TypeError"
  | .attributeError => "AttributeError"
  | .valueError => "ValueError"
  | .overflowError => "OverflowError"
  | .keyError => "KeyError"

/-- Discriminator used to state that an error is *not* `SessionExpired`. -/
def Exc.isSessionExpired : Exc → Bool
  | .sessionExpired _ => true
  | _ => false

/-! ### Python value semantics -/

/-- Python truthiness (`bool(x)`) for the modelled values. -/
def jTruthy : JValue → Bool
  | .null => false
  | .bool b => b
  | .int n => n != 0
  | .flt q => q != 0
  | .str s => s != ""
  | .arr xs => !xs.isEmpty
  | .obj fs => !fs.isEmpty

/-- Numeric view used by Python `==` / `>` across `bool`, `int`, `float`. -/
def jNum? : JValue → Option ℚ
  | .bool b => some (if b then 1 else 0)
  | .int n => some (n : ℚ)
  | .flt q => some q
  | _ => none

/-- Python `==` restricted to the primitive (hashable) values the embedded
code compares: numbers unify across `bool`/`int`/`float`; strings compare
as strings; everything else (including any comparison between a container
and a primitive) is `False`.  Container/container equality never occurs in
the embedded comparisons. -/
def primEq (a b : JValue) : Bool :=
  match a, b with
  | .str x, .str y => x == y
  | .null, .null => true
  | _, _ =>
    match jNum? a, jNum? b with
    | some x, some y => x == y
    | _, _ => false

/-- Python hashability: lists and dicts are unhashable. -/
def jHashable : JValue → Bool
  | .arr _ | .obj _ => false
  | _ => true

/-- Last binding for a key wins, matching `json.loads` collapsing duplicate
keys and `dict` update semantics. -/
def lookupLast (fs : List (String × JValue)) (k : String) : Option JValue :=
  fs.foldl (fun acc p => if p.1 == k then some p.2 else acc) none

/-- `d.get(k, default)`; raises `AttributeError` when the receiver is not a
dict (Python strings/ints have no `.get`). -/
def pyGet (v : JValue) (k : String) (d : JValue) : Except Exc JValue :=
  match v with
  | .obj fs => .ok ((lookupLast fs k).getD d)
  | _ => .error .attributeError

/-- Total variant of `pyGet` for receivers already known to be dicts. -/
def pyGetD (fs : List (String × JValue)) (k : String) (d : JValue) : JValue :=
  (lookupLast fs k).getD d

/-- Python iteration (`for x in v`): lists yield elements, dicts yield their
keys, strings yield 1-character strings, everything else raises
`TypeError`. -/
def jIterate : JValue → Except Exc (List JValue)
  | .arr xs => .ok xs
  | .obj fs => .ok (fs.map (fun p => .str p.1))
  | .str s => .ok (s.data.map (fun c => .str (String.mk [c])))
  | _ => .error .typeError

/-- Lookup in a Python dict keyed by arbitrary (hashable) values, as used
for `pkg_to_title.get(pkg, pkg)`.  Unhashable keys raise `TypeError`.
Later insertions win. -/
def pyDictGet (m : List (JValue × JValue)) (k : JValue) (d : JValue) :
    Except Exc JValue :=
  if jHashable k then
    .ok ((m.foldl (fun acc p => if primEq p.1 k then some p.2 else acc) none).getD d)
  else
    .error .typeError

/-- Truncation toward zero, Python's `int()` on a finite float. -/
def ratTrunc (q : ℚ) : Int :=
  if q < 0 then -(⌊-q⌋) else ⌊q⌋

/-- Decimal digit characters `'0'..'9'`. -/
def decChar (d : Nat) : Char := Char.ofNat (48 + d)

/-- Digits of a number, least significant first (`fuel`-structured so the
definition computes by `rfl`; `fuel = n` always suffices since `n / 10`
shrinks). -/
def decDigitsRevFuel : Nat → Nat → List Char
  | 0, _ => []
  | _ + 1, 0 => []
  | fuel + 1, n + 1 => decChar ((n + 1) % 10) :: decDigitsRevFuel fuel ((n + 1) / 10)

/-- Digits of a positive number, least significant first. -/
def decDigitsRev (n : Nat) : List Char := decDigitsRevFuel n n

/-- Python `str()` / f-string rendering of a non-negative integer. -/
def pyStrNat (n : Nat) : String :=
  if n = 0 then "0" else String.mk (decDigitsRev n).reverse

/-- Python integer-literal parsing used by `int(str)`: optional surrounding
whitespace, optional sign, then decimal digits optionally separated by
single underscores (PEP 515).  Exotic forms (unicode digits) are out of
scope. -/
def parseIntDigits : List Char → Option Nat
  | [] => none
  | cs =>
    if cs.head? = some '_' ∨ cs.getLast? = some '_' then none
    else
      let rec go : List Char → Bool
        | [] => true
        | '_' :: '_' :: _ => false
        | '_' :: rest => go rest
        | c :: rest => c.isDigit && go rest
      if go cs then
        some ((cs.filter (· ≠ '_')).foldl (fun acc c => acc * 10 + (c.toNat - 48)) 0)
      else none

def pyIntOfString (s : String) : Option Int :=
  let cs := s.data.dropWhile (· = ' ') |>.reverse.dropWhile (· = ' ') |>.reverse
  match cs with
  | '-' :: rest => (parseIntDigits rest).map (fun n => -(n : Int))
  | '+' :: rest => (parseIntDigits rest).map (fun n => (n : Int))
  | _ => (parseIntDigits cs).map (fun n => (n : Int))

/-- Python `int(x)` under a `try/except (ValueError, TypeError)` guard:
`none` models the caught exception. -/
def pyInt? : JValue → Option Int
  | .int n => some n
  | .bool b => some (if b then 1 else 0)
  | .flt q => some (ratTrunc q)
  | .str s => pyIntOfString s
  | _ => none

/-- Substring test (`needle in hay` for Python strings). -/
def strContainsB (hay needle : String) : Bool :=
  hay.data.tails.any (fun t => needle.data.isPrefixOf t)

/-- Python's `x in v` for a string `x`: element equality in a list, key
membership in a dict, substring test in a string; `TypeError` otherwise. -/
def pyInStr (needle : String) (v : JValue) : Except Exc Bool :=
  match v with
  | .arr xs => .ok (xs.any (primEq (.str needle)))
  | .obj fs => .ok (fs.any (fun p => p.1 == needle))
  | .str s => .ok (strContainsB s needle)
  | _ => .error .typeError

/-! ### Python floats (for `float(str)` in `parse_usage`)

The value of a parsed decimal literal is modelled as the exact rational;
true IEEE rounding differs only in the last ulp, which none of the claims
depend on.  Underscore separators and unicode whitespace/digits are out of
scope of the model. -/

inductive PyFloat where
  | finite (q : ℚ)
  | inf
  | neginf
  | nan
deriving Repr

def digitsVal (cs : List Char) : Nat :=
  cs.foldl (fun a c => a * 10 + (c.toNat - 48)) 0

def allDigits (cs : List Char) : Bool := cs.all (·.isDigit)

/-- Split a char list at the first separator matching `p`; the second
component is `none` when no separator occurs. -/
def splitAtChar (p : Char → Bool) : List Char → List Char × Option (List Char)
  | [] => ([], none)
  | c :: rest =>
    if p c then ([], some rest)
    else
      let r := splitAtChar p rest
      (c :: r.1, r.2)

def parseMantissa (cs : List Char) : Option ℚ :=
  let r := splitAtChar (· == '.') cs
  match r.2 with
  | none =>
    if cs ≠ [] ∧ allDigits cs then some (digitsVal cs : ℚ) else none
  | some fp =>
    if (r.1 ≠ [] ∨ fp ≠ []) ∧ allDigits r.1 ∧ allDigits fp then
      some ((digitsVal r.1 : ℚ) + (digitsVal fp : ℚ) / (10 : ℚ) ^ fp.length)
    else none

def parseExpPart (cs : List Char) : Option Int :=
  match cs with
  | '+' :: r => if r ≠ [] ∧ allDigits r then some (digitsVal r : Int) else none
  | '-' :: r => if r ≠ [] ∧ allDigits r then some (-(digitsVal r : Int)) else none
  | r => if r ≠ [] ∧ allDigits r then some (digitsVal r : Int) else none

def parseUnsignedFloat (cs : List Char) : Option PyFloat :=
  let low := cs.map Char.toLower
  if low = "inf".data ∨ low = "infinity".data then some .inf
  else if low = "nan".data then some .nan
  else
    let r := splitAtChar (fun c => c == 'e' || c == 'E') cs
    match r.2 with
    | none => (parseMantissa r.1).map .finite
    | some ex =>
      match parseMantissa r.1, parseExpPart ex with
      | some q, some e => some (.finite (q * (10 : ℚ) ^ e))
      | _, _ => none

def PyFloat.neg : PyFloat → PyFloat
  | .finite q => .finite (-q)
  | .inf => .neginf
  | .neginf => .inf
  | .nan => .nan

/-- Python `float(s)` for a string, `none` modelling `ValueError`. -/
def pyFloat? (s : String) : Option PyFloat :=
  let cs := (s.data.dropWhile (· == ' ')).reverse.dropWhile (· == ' ') |>.reverse
  match cs with
  | '+' :: r => parseUnsignedFloat r
  | '-' :: r => (parseUnsignedFloat r).map PyFloat.neg
  | r => parseUnsignedFloat r

/-! ### `parsers.parse_usage` -/

/-- `datetime.date.today()` as seen by `parse_usage`. -/
structure PyDate where
  year : Int
  month : Int
  day : Int
deriving Repr, DecidableEq

/-- One element of `parse_usage`'s result list
(`{"app_name": ..., "usage_seconds": ...}`). -/
structure UsageRec where
  app_name : JValue
  usage_seconds : Int
deriving Repr

/-- `"....".rstrip("s")`. -/
def rstripS (s : String) : String :=
  String.mk (s.data.reverse.dropWhile (· == 's')).reverse

/-- `seconds` after the `try float(...) except ValueError` block and the
NaN guard in `parse_usage`. -/
def secondsOf (s : String) : PyFloat :=
  match pyFloat? s with
  | none => .finite 0
  | some .nan => .finite 0
  | some f => f

/-- `int(seconds)`: truncation on finite floats, `OverflowError` on
infinities (not caught by the `except ValueError` in the source). -/
def pyIntOfFloat : PyFloat → Except Exc Int
  | .finite q => .ok (ratTrunc q)
  | .nan => .error .valueError
  | _ => .error .overflowError

/-- One step of the `pkg_to_title` dict comprehension in `parse_usage`:
a pair is only inserted when both `packageName` and `title` are truthy; an
unhashable key raises `TypeError`. -/
def pkgMapStep (m : List (JValue × JValue)) (app : JValue) :
    Except Exc (List (JValue × JValue)) := do
  let cond1 ← pyGet app "packageName" .null
  if jTruthy cond1 then
    let cond2 ← pyGet app "title" .null
    if jTruthy cond2 then
      let k ← pyGet app "packageName" (.str "")
      let v ← pyGet app "title" (.str "")
      if jHashable k then .ok (m ++ [(k, v)]) else .error .typeError
    else .ok m
  else .ok m

/-- The `pkg_to_title` dict comprehension in `parse_usage`. -/
def buildPkgMap (apps : List JValue) : Except Exc (List (JValue × JValue)) :=
  apps.foldlM pkgMapStep []

/-- Body of the session loop in `parse_usage`: `none` when the session is
not dated today (it is skipped), `some` with the built record otherwise. -/
def processSession (today : PyDate) (m : List (JValue × JValue))
    (session : JValue) : Except Exc (Option UsageRec) := do
  let d ← pyGet session "date" (.obj [])
  let y ← pyGet d "year" .null
  if primEq y (.int today.year) then do
    let mo ← pyGet d "month" .null
    if primEq mo (.int today.month) then do
      let dy ← pyGet d "day" .null
      if primEq dy (.int today.day) then do
        let u ← pyGet session "usage" (.str "0s")
        match u with
        | .str us => do
          let seconds := secondsOf (rstripS us)
          let appId ← pyGet session "appId" (.obj [])
          let pkg ← pyGet appId "androidAppPackageName" (.str "")
          let title ← pyDictGet m pkg pkg
          let secs ← pyIntOfFloat seconds
          pure (some ⟨title, secs⟩)
        | _ => .error .attributeError
      else pure none
    else pure none
  else pure none

/-- One step of the session loop: append the built record, or keep the
accumulator when the session was skipped by the date filter. -/
def sessionStep (today : PyDate) (m : List (JValue × JValue))
    (acc : List UsageRec) (s : JValue) : Except Exc (List UsageRec) := do
  match ← processSession today m s with
  | some r => pure (acc ++ [r])
  | none => pure acc

/-- Stable insertion for descending sort by `usage_seconds` (a new element
goes after existing elements with greater-or-equal usage, matching
`list.sort(key=..., reverse=True)`). -/
def insertDescUsage (x : UsageRec) : List UsageRec → List UsageRec
  | [] => [x]
  | y :: ys =>
    if x.usage_seconds ≤ y.usage_seconds then y :: insertDescUsage x ys
    else x :: y :: ys

def sortDescUsage (l : List UsageRec) : List UsageRec :=
  l.foldl (fun acc x => insertDescUsage x acc) []

/-- `parsers.parse_usage`, with Python exceptions surfaced in `Except`. -/
def parse_usage (today : PyDate) (raw : JValue) :
    Except Exc (List UsageRec) := do
  let appsV ← pyGet raw "apps" (.arr [])
  let apps ← jIterate appsV
  let m ← buildPkgMap apps
  let sessV ← pyGet raw "appUsageSessions" (.arr [])
  let sess ← jIterate sessV
  let recs ← sess.foldlM (sessionStep today m) []
  pure (sortDescUsage recs)

/-! ### `parsers.parse_restrictions` -/

/-- An element of the `limited` list
(`{"app": ..., "limit_minutes": ..., "package": ...}`). -/
structure LimitedRec where
  app : JValue
  limit_minutes : JValue
  package : JValue
deriving Repr

/-- An element of the `supervisable` list (`{"package": ..., "title": ...}`). -/
structure SupRec where
  package : JValue
  title : JValue
deriving Repr

/-- The four lists returned by `parse_restrictions`. -/
structure RestrOut where
  limited : List LimitedRec
  blocked : List JValue
  always_allowed : List JValue
  supervisable : List SupRec
deriving Repr

/-- Body of the app loop in `parse_restrictions`. -/
def processApp (acc : RestrOut) (app : JValue) : Except Exc RestrOut := do
  let pn ← pyGet app "packageName" (.str "")
  let title ← pyGet app "title" pn
  let pkg ← pyGet app "packageName" (.str "")
  let settings ← pyGet app "supervisionSetting" (.obj [])
  let caps ← pyGet app "supervisionCapabilities" (.arr [])
  let can_limit ← pyInStr "capabilityUsageLimit" caps
  let is_blocked ← pyGet settings "hidden" (.bool false)
  let aaInfo ← pyGet settings "alwaysAllowedAppInfo" (.obj [])
  let aaState ← pyGet aaInfo "alwaysAllowedState" .null
  let is_always_allowed := primEq aaState (.str "alwaysAllowedStateEnabled")
  let acc1 ←
    if jTruthy is_blocked then
      pure { acc with blocked := acc.blocked ++ [title] }
    else do
      let limit ← pyGet settings "usageLimit" .null
      if jTruthy limit then do
        let lm ← pyGet limit "dailyUsageLimitMins" .null
        pure { acc with limited := acc.limited ++ [⟨title, lm, pkg⟩] }
      else if is_always_allowed then
        pure { acc with always_allowed := acc.always_allowed ++ [title] }
      else
        pure acc
  if can_limit && !jTruthy is_blocked && !is_always_allowed then
    pure { acc1 with supervisable := acc1.supervisable ++ [⟨pkg, title⟩] }
  else
    pure acc1

/-- `parsers.parse_restrictions`, with Python exceptions in `Except`. -/
def parse_restrictions (raw : JValue) : Except Exc RestrOut := do
  let appsV ← pyGet raw "apps" (.arr [])
  let apps ← jIterate appsV
  apps.foldlM processApp ⟨[], [], [], []⟩

/-! ### `parsers.parse_applied_time_limits`

This parser is written defensively in the source (every subscript and type
is guarded, `int()` is wrapped in `try/except`), so its embedding is a
total function. -/

/-- One element of the parsed device list. -/
structure DeviceRecord where
  device_id : JValue
  is_locked : Bool
  active_policy : JValue
  override_action : Option Int
  usage_minutes_today : Int
  today_limit_minutes : Option Int
deriving Repr

/-- Processing of one entry of a keyed-object (JSON dict) response:
`none` when the entry is skipped (non-dict, or falsy `deviceId`). -/
def appliedEntryDict? (entry : JValue) : Option DeviceRecord :=
  match entry with
  | .obj fs =>
    let device_id := pyGetD fs "deviceId" (.str "")
    if jTruthy device_id then
      let is_locked := jTruthy (pyGetD fs "isLocked" (.bool false))
      let active_policy := pyGetD fs "activePolicy" (.str "noActivePolicy")
      let usage_minutes :=
        match pyGetD fs "currentUsageUsedMillis" .null with
        | .null => 0
        | v =>
          match pyInt? v with
          | some n => n.fdiv 60000
          | none => 0
      let today_limit :=
        match pyGetD fs "currentUsageLimitEntry" (.obj []) with
        | .obj lfs =>
          match lookupLast lfs "usageQuotaMins" with
          | some (.int q) => some q
          | some (.bool b) => some (if b then 1 else 0)
          | _ => none
        | _ => none
      some ⟨device_id, is_locked, active_policy, none, usage_minutes, today_limit⟩
    else none
  | _ => none

/-- Processing of one entry of a legacy JSPB positional-array response. -/
def appliedEntryJspb? (entry : JValue) : Option DeviceRecord :=
  match entry with
  | .arr l =>
    let device_id : String :=
      match l.get? 25 with
      | some (.str s) => s
      | _ => ""
    if device_id ≠ "" then
      let is_locked :=
        match l.get? 28 with
        | some v => jTruthy v
        | none => false
      let override_action : Option Int :=
        match l.get? 30 with
        | some (.arr (first :: _)) =>
          match first with
          | .arr fl =>
            if fl.length > 1 then
              match fl.get? 1 with
              | some v => pyInt? v
              | none => none
            else none
          | _ => none
        | _ => none
      let active_policy : String :=
        if override_action.isSome then "override"
        else if is_locked then "timeLimitOn"
        else "noActivePolicy"
      let usage_minutes :=
        match l.get? 19 with
        | some .null => 0
        | some v =>
          match pyInt? v with
          | some n => n.fdiv 60000
          | none => 0
        | none => 0
      let today_limit : Option Int :=
        match l.get? 6 with
        | some (.int q) => some q
        | some (.bool b) => some (if b then 1 else 0)
        | _ => none
      some ⟨.str device_id, is_locked, .str active_policy, override_action,
        usage_minutes, today_limit⟩
    else none
  | _ => none

/-- `parsers.parse_applied_time_limits`: detects keyed-object vs legacy
positional-array shape and parses each; unknown shapes yield `[]`. -/
def parse_applied_time_limits (raw : JValue) : List DeviceRecord :=
  match raw with
  | .obj fs =>
    match pyGetD fs "appliedTimeLimits" (.arr []) with
    | .arr entries => entries.filterMap appliedEntryDict?
    | _ => []
  | .arr l =>
    if l.length ≥ 2 then
      match l.get? 1 with
      | some (.arr entries) => entries.filterMap appliedEntryJspb?
      | _ => []
    else []
  | _ => []

/-! ### `auth/session.py` — `SessionManager` -/

/-- A stored browser cookie record.  `name`, `value` and `domain` are
strings in every acquisition path; the expiry fields are kept as raw
values because the code type-checks them before use. -/
structure Cookie where
  name : String
  value : String
  domain : String
  expires : JValue := .null
  expirationDate : JValue := .null
deriving Repr

/-- The narrow signing-cookie name set from `is_authenticated`. -/
def sapisidNames : List String :=
  ["SAPISID", "__Secure-3PAPISID", "__Secure-1PAPISID", "APISID"]

/-- The cookie loop of `SessionManager.is_authenticated`: the first cookie
whose name is in the SAPISID set decides (expired → `False`, otherwise
`True`); if no signing cookie occurs the method still returns `True`. -/
def isAuthLoop (now : ℚ) : List Cookie → Bool
  | [] => true
  | c :: rest =>
    if sapisidNames.contains c.name then
      let expires := if jTruthy c.expires then c.expires else c.expirationDate
      let expired :=
        if jTruthy expires then
          match jNum? expires with
          | some q => if q > 0 then decide (now > q) else false
          | none => false
        else false
      !expired
    else isAuthLoop now rest

/-- `SessionManager.is_authenticated`, with the loaded session modelled as
`Option (List Cookie)` (`none` = no session data) and `now` the value of
`dt_util.utcnow().timestamp()`. -/
def is_authenticated (now : ℚ) (sd : Option (List Cookie)) : Bool :=
  match sd with
  | none => false
  | some cookies => if cookies.isEmpty then false else isAuthLoop now cookies

/-- `FamilyLinkClient._get_sapisid`: the signing secret, or an
`AuthenticationError` when no usable signing cookie exists (the spec calls
this failure `NoSecret`). -/
def getSapisid (sd : Option (List Cookie)) : Except Exc String :=
  match sd with
  | none => .error (.authError "No active session - please re-authenticate")
  | some cookies =>
    match cookies.find?
        (fun c => c.name == "SAPISID" && strContainsB c.domain ".google.com") with
    | some c => .ok c.value
    | none =>
      match cookies.find?
          (fun c => c.name == "__Secure-3PAPISID" || c.name == "APISID") with
      | some c => .ok c.value
      | none =>
        .error (.authError
          "SAPISID cookie not found - please re-authenticate via the integration options.")

/-! ### `client/api.py` — `_sapisidhash` (Request Signer)

SHA-1 is implemented over byte lists with plain `Nat` arithmetic
(`% 2^32` where 32-bit overflow matters). -/

/-- UTF-8 encoding of one character (code point) as bytes. -/
def encodeCharUtf8 (c : Char) : List Nat :=
  let n := c.toNat
  if n < 128 then [n]
  else if n < 2048 then [192 + n / 64, 128 + n % 64]
  else if n < 65536 then
    [224 + n / 4096, 128 + (n / 64) % 64, 128 + n % 64]
  else
    [240 + n / 262144, 128 + (n / 4096) % 64, 128 + (n / 64) % 64, 128 + n % 64]

/-- `str.encode()`: UTF-8 bytes of a string. -/
def utf8Encode (s : String) : List Nat :=
  (s.data.map encodeCharUtf8).flatten

def rotl (k x : Nat) : Nat :=
  ((x <<< k) ||| (x >>> (32 - k))) % 4294967296

def sha1F (i b c d : Nat) : Nat :=
  if i < 20 then (b &&& c) ||| ((4294967295 - b) &&& d)
  else if i < 40 then b ^^^ c ^^^ d
  else if i < 60 then (b &&& c) ||| (b &&& d) ||| (c &&& d)
  else b ^^^ c ^^^ d

def sha1K (i : Nat) : Nat :=
  if i < 20 then 1518500249
  else if i < 40 then 1859775393
  else if i < 60 then 2400959708
  else 3395469782

/-- Merkle–Damgård padding: `0x80`, zeros, 64-bit big-endian bit length. -/
def sha1Pad (msg : List Nat) : List Nat :=
  let len := msg.length
  let padZeros := (64 - (len + 9) % 64) % 64
  msg ++ [128] ++ List.replicate padZeros 0 ++
    (List.range 8).map (fun i => ((len * 8) >>> (8 * (7 - i))) % 256)

def chunksOf64 : List Nat → List (List Nat)
  | [] => []
  | l@(_ :: _) => l.take 64 :: chunksOf64 (l.drop 64)
termination_by l => l.length
decreasing_by simp_all [List.length_drop]; omega

def bytesToWords : List Nat → List Nat
  | b0 :: b1 :: b2 :: b3 :: rest =>
    (((b0 * 256 + b1) * 256 + b2) * 256 + b3) :: bytesToWords rest
  | _ => []

/-- Expand 16 message words to the 80-word schedule. -/
def sha1Expand (w : List Nat) : List Nat :=
  (List.range 64).foldl
    (fun ws _ =>
      let t := ws.length
      ws ++ [rotl 1 ((ws.getD (t - 3) 0 ^^^ ws.getD (t - 8) 0) ^^^
        (ws.getD (t - 14) 0 ^^^ ws.getD (t - 16) 0))])
    w

structure Sha1State where
  a : Nat
  b : Nat
  c : Nat
  d : Nat
  e : Nat

def sha1Compress (h : Sha1State) (block : List Nat) : Sha1State :=
  let w := sha1Expand (bytesToWords block)
  let r := (List.range 80).foldl
    (fun (st : Sha1State) i =>
      let temp :=
        (rotl 5 st.a + sha1F i st.b st.c st.d + st.e + sha1K i + w.getD i 0) %
          4294967296
      ⟨temp, st.a, rotl 30 st.b, st.c, st.d⟩)
    h
  ⟨(h.a + r.a) % 4294967296, (h.b + r.b) % 4294967296,
   (h.c + r.c) % 4294967296, (h.d + r.d) % 4294967296,
   (h.e + r.e) % 4294967296⟩

def hexCharOf (d : Nat) : Char :=
  if d < 10 then Char.ofNat (48 + d) else Char.ofNat (87 + d)

def wordToHex (w : Nat) : List Char :=
  (List.range 8).map (fun i => hexCharOf ((w >>> (4 * (7 - i))) % 16))

/-- Lowercase hex SHA-1 digest of a byte list (`hashlib.sha1(..).hexdigest()`). -/
def sha1Hex (msg : List Nat) : String :=
  let h := (chunksOf64 (sha1Pad msg)).foldl sha1Compress
    ⟨1732584193, 4023233417, 2562383102, 271733878, 3285377520⟩
  String.mk (wordToHex h.a ++ wordToHex h.b ++ wordToHex h.c ++
    wordToHex h.d ++ wordToHex h.e)

/-- `_sapisidhash(sapisid, origin)` with the millisecond timestamp
`int(time.time() * 1000)` made an explicit argument (it is the only
effectful input of the source function). -/
def sapisidhash (sapisid origin : String) (ts : Nat) : String :=
  pyStrNat ts ++ "_" ++
    sha1Hex (utf8Encode (pyStrNat ts ++ " " ++ sapisid ++ " " ++ origin))

/-! ### `client/api.py` — `_resolve_package` -/

def toLowerStr (s : String) : String := String.mk (s.data.map Char.toLower)

/-- The per-child title→package cache refill performed by
`async_get_apps_and_usage`: `cache[title.lower()] = pkg` for every app with
truthy title and package; a non-string truthy title has no `.lower()`. -/
def buildTitleCache (raw : JValue) : Except Exc (List (String × JValue)) := do
  let appsV ← pyGet raw "apps" (.arr [])
  let apps ← jIterate appsV
  apps.foldlM
    (fun m app => do
      let title ← pyGet app "title" (.str "")
      let pkg ← pyGet app "packageName" (.str "")
      if jTruthy title && jTruthy pkg then
        match title with
        | .str t => pure (m ++ [(toLowerStr t, pkg)])
        | _ => .error .attributeError
      else pure m)
    []

def lookupAssoc {α : Type} (l : List (String × α)) (k : String) : Option α :=
  l.foldl (fun acc p => if p.1 == k then some p.2 else acc) none

def setAssoc {α : Type} (l : List (String × α)) (k : String) (v : α) :
    List (String × α) :=
  (l.filter (fun p => p.1 ≠ k)) ++ [(k, v)]

/-- Outcome of `_resolve_package`: the resolution result, the app cache
after the call, and whether `async_get_apps_and_usage` was awaited. -/
structure ResolveResult where
  result : Except Exc JValue
  cacheAfter : List (String × List (String × JValue))
  fetched : Bool
deriving Repr

def resolveFinish (cache : List (String × List (String × JValue)))
    (child_id app_name : String) (fetched : Bool) : ResolveResult :=
  let m := (lookupAssoc cache child_id).getD []
  match lookupAssoc m (toLowerStr app_name) with
  | some pkg =>
    if jTruthy pkg then ⟨.ok pkg, cache, fetched⟩
    else ⟨.error (.deviceControl ("App " ++ app_name ++ " not found on childs device.")),
      cache, fetched⟩
  | none =>
    ⟨.error (.deviceControl ("App " ++ app_name ++ " not found on childs device.")),
      cache, fetched⟩

/-- `FamilyLinkClient._resolve_package`.  `fetchRaw` is the response
`async_get_apps_and_usage` would produce when awaited for a cold cache. -/
def resolve_package (cache : List (String × List (String × JValue)))
    (fetchRaw : Except Exc JValue) (child_id app_name : String) :
    ResolveResult :=
  if strContainsB app_name "." then
    ⟨.ok (.str app_name), cache, false⟩
  else if (lookupAssoc cache child_id).isSome then
    resolveFinish cache child_id app_name false
  else
    match fetchRaw with
    | .error e => ⟨.error e, cache, true⟩
    | .ok raw =>
      match buildTitleCache raw with
      | .error e => ⟨.error e, cache, true⟩
      | .ok m => resolveFinish (setAssoc cache child_id m) child_id app_name true

/-! ### `client/api.py` — the per-endpoint HTTP failure mapping

Every HTTP call in `api.py` wraps its round-trip in the same
`try/except` pattern: `aiohttp.ClientResponseError` (any non-2xx status,
raised by `resp.raise_for_status()`) is re-raised as the endpoint
family error with message `"HTTP {status} while <desc>"`, and every other
exception as the same error type with `"<failDesc>: {err}"` — the raises
at api.py:113, 151, 219, 268, 309, 366, 427, 460, 521 and their paired
`except Exception` clauses.  The four read endpoints raise `NetworkError`,
the five write endpoints raise `DeviceControlError`. -/

/-- Outcome of the HTTP round-trip inside an API call:
`clientResponseError` models `raise_for_status()` raising
`aiohttp.ClientResponseError` on a non-2xx status, `otherExc` every other
exception (timeouts, connection reset, DNS failure, body-decode errors). -/
inductive HttpResult where
  | ok (body : JValue)
  | clientResponseError (status : Nat)
  | otherExc (msg : String)
deriving Repr

/-- The single-quote character (U+0027) as a string; two of the api.py
messages wrap a value in single quotes. -/
def sq : String := String.mk [Char.ofNat 39]

/-- The API methods of `FamilyLinkClient` that perform an HTTP call, one
constructor per method (`updateRestriction` carries the app name because
its error message interpolates it). -/
inductive Endpoint where
  | members
  | appsAndUsage
  | appliedTimeLimits
  | timeLimit
  | updateRestriction (app_name : String)
  | bulkUpdateRestrictions
  | deviceBonusTime
  | todayLimit
  | dailyLimit
deriving Repr, DecidableEq

/-- Whether the endpoint is one of the write (device-control) methods. -/
def Endpoint.isWrite : Endpoint → Bool
  | .members | .appsAndUsage | .appliedTimeLimits | .timeLimit => false
  | _ => true

/-- The `"while ..."` phrase of the endpoint `ClientResponseError`
message, verbatim from api.py (the quotes around the app name and the
apostrophe of the today-limit message are spelled via `sq`). -/
def endpointHttpDesc : Endpoint → String
  | .members => "fetching members"
  | .appsAndUsage => "fetching app usage"
  | .appliedTimeLimits => "fetching applied time limits"
  | .timeLimit => "fetching time limits"
  | .updateRestriction app_name =>
    "updating restriction for " ++ sq ++ app_name ++ sq
  | .bulkUpdateRestrictions => "bulk-updating restrictions"
  | .deviceBonusTime => "setting device bonus time"
  | .todayLimit => "setting today" ++ sq ++ "s limit"
  | .dailyLimit => "setting daily limit"

/-- The message prefix of the endpoint catch-all `except Exception`
clause, verbatim from api.py. -/
def endpointFailDesc : Endpoint → String
  | .members => "Failed to fetch members"
  | .appsAndUsage => "Failed to fetch app usage"
  | .appliedTimeLimits => "Failed to fetch applied time limits"
  | .timeLimit => "Failed to fetch time limits"
  | .updateRestriction _ => "Failed to update restriction"
  | .bulkUpdateRestrictions => "Failed to bulk-update restrictions"
  | .deviceBonusTime => "Failed to set device bonus time"
  | .todayLimit => "Failed to set today" ++ sq ++ "s limit"
  | .dailyLimit => "Failed to set daily limit"

/-- The error class each endpoint raises on an HTTP failure:
`NetworkError` for the read endpoints, `DeviceControlError` for the write
endpoints. -/
def endpointError (ep : Endpoint) (m : String) : Exc :=
  if ep.isWrite then .deviceControl m else .networkError m

/-- The repeated `try/except` block around every HTTP call in api.py: a
non-2xx status becomes `endpointError ep "HTTP {status} while {desc}"`,
any other exception becomes `endpointError ep "{failDesc}: {err}"`, and a
2xx response is passed through to the endpoint-specific continuation. -/
def apiCallFailureMap (ep : Endpoint) : HttpResult → Except Exc JValue
  | .ok body => .ok body
  | .clientResponseError s =>
    .error (endpointError ep
      ("HTTP " ++ pyStrNat s ++ " while " ++ endpointHttpDesc ep))
  | .otherExc m =>
    .error (endpointError ep (endpointFailDesc ep ++ ": " ++ m))

/-- A member as assembled by `async_get_members`. -/
structure MemberRec where
  child_id : JValue
  name : JValue
  email : JValue
deriving Repr

def parseMembersBody (body : JValue) : Except Exc (List MemberRec) := do
  let ms ← pyGet body "members" (.arr [])
  let lst ← jIterate ms
  lst.foldlM
    (fun acc m => do
      let supInfo ← pyGet m "memberSupervisionInfo" (.obj [])
      let isSup ← pyGet supInfo "isSupervisedMember" (.bool false)
      if !jTruthy isSup then pure acc
      else do
        let profile ← pyGet m "profile" (.obj [])
        let uid ← pyGet m "userId" (.str "")
        let dn ← pyGet profile "displayName" (.str "")
        let em ← pyGet profile "email" (.str "")
        pure (acc ++ [(⟨uid, dn, em⟩ : MemberRec)]))
    []

/-- `FamilyLinkClient.async_get_members` as a function of the HTTP outcome:
every `ClientResponseError` (any non-2xx status, 401/403 included) becomes
`NetworkError("HTTP {status} while fetching members")`, every other
exception becomes `NetworkError("Failed to fetch members: ...")`, and a
2xx body is filtered to supervised children. -/
def async_get_members (r : HttpResult) : Except Exc (List MemberRec) :=
  (apiCallFailureMap .members r).bind parseMembersBody

/-- `FamilyLinkClient.async_get_apps_and_usage` as a function of the HTTP
outcome: the shared failure mapping, then the title→package cache refill
(`buildTitleCache`, performed after the `try` block); returns the new
cache entry for the child together with the raw body the method
returns. -/
def async_get_apps_and_usage (r : HttpResult) :
    Except Exc (List (String × JValue) × JValue) := do
  let data ← apiCallFailureMap .appsAndUsage r
  let cache ← buildTitleCache data
  pure (cache, data)

/-- `FamilyLinkClient.async_get_applied_time_limits` as a function of the
HTTP outcome: the shared failure mapping, then the total normalizer
`parse_applied_time_limits`. -/
def async_get_applied_time_limits (r : HttpResult) :
    Except Exc (List DeviceRecord) :=
  (apiCallFailureMap .appliedTimeLimits r).map parse_applied_time_limits

/-! ### `coordinator.py` — `_async_update_data`

The per-fetch outcomes are inputs (a `FetchPlan`); `asyncio.gather(...,
return_exceptions=True)` makes per-child fetch exceptions data rather than
raises, which the model reflects by matching on the `Except` value instead
of propagating it.  `async_get_device_names` is absent from the source
tree; only its result (a device-id → display-name dict, guarded by
`isinstance(..., dict)` in the coordinator) is modelled. -/

/-- A supervised child as consumed by the coordinator (ids are strings). -/
structure Child where
  child_id : String
  name : String
  email : String
deriving Repr, DecidableEq

/-- One day row of the weekly schedule as stored in `daily_limits`. -/
structure DailyEntry where
  entry_id : JValue
  quota_mins : JValue
deriving Repr

/-! ### `client/api.py` — remaining endpoints and session validation -/

/-- Python subscripting `v[i]` (non-negative literal index) inside the
outer `try` of `async_get_time_limit`, where `IndexError`, `TypeError`,
`KeyError` and `json.JSONDecodeError` are all caught: `none` models any of
them (out-of-range list index, non-subscriptable value, or an integer key
on the string-keyed `json.loads` dict). -/
def pyIndex? : JValue → Nat → Option JValue
  | .arr l, i => l.get? i
  | .str s, i => (s.data.get? i).map (fun c => .str (String.mk [c]))
  | _, _ => none

/-- Python subscripting `entry[i]` inside the per-entry `try` of
`async_get_time_limit`, where only `IndexError` and `TypeError` are
caught: those become `none` (the entry is skipped), while a dict entry
raises an *uncaught* `KeyError` (integer key on a string-keyed dict). -/
def entryIndex : JValue → Nat → Except Exc (Option JValue)
  | .arr l, i => .ok (l.get? i)
  | .str s, i => .ok ((s.data.get? i).map (fun c => .str (String.mk [c])))
  | .obj _, _ => .error .keyError
  | _, _ => .ok none

/-- `result[day_num] = {...}` on the insertion-ordered Python dict:
replace in place when the key is already present, append otherwise. -/
def upsertDay (l : List (JValue × DailyEntry)) (k : JValue) (v : DailyEntry) :
    List (JValue × DailyEntry) :=
  if l.any (fun p => primEq p.1 k) then
    l.map (fun p => if primEq p.1 k then (p.1, v) else p)
  else l ++ [(k, v)]

/-- One iteration of the entry loop in `async_get_time_limit`: the three
subscripts are evaluated in order inside a `try` catching `IndexError` and
`TypeError` (`continue` on either), and an unhashable `day_num` key makes
the dict assignment raise a `TypeError` that the same clause catches. -/
def timeLimitEntryStep (acc : List (JValue × DailyEntry)) (entry : JValue) :
    Except Exc (List (JValue × DailyEntry)) := do
  match ← entryIndex entry 0 with
  | none => pure acc
  | some eid =>
    match ← entryIndex entry 1 with
    | none => pure acc
    | some day =>
      match ← entryIndex entry 3 with
      | none => pure acc
      | some quota =>
        if jHashable day then pure (upsertDay acc day ⟨eid, quota⟩)
        else pure acc

/-- `FamilyLinkClient.async_get_time_limit` as a function of the HTTP
outcome: the shared failure mapping, then the JSPB extraction
`data[1][1][0][2]`, whose caught failures all yield `{}` (a body that
fails `json.loads` is not representable as a `JValue` and takes that same
branch), then the per-entry loop — whose `for` raises an uncaught
`TypeError` when the extracted value is not iterable. -/
def async_get_time_limit (r : HttpResult) :
    Except Exc (List (JValue × DailyEntry)) := do
  let data ← apiCallFailureMap .timeLimit r
  match (pyIndex? data 1).bind (fun a =>
      (pyIndex? a 1).bind (fun b =>
        (pyIndex? b 0).bind (fun c => pyIndex? c 2))) with
  | none => pure []
  | some entries => do
    let lst ← jIterate entries
    lst.foldlM timeLimitEntryStep []

/-- The HTTP stage of `FamilyLinkClient.async_update_app_restriction`
(api.py:211-224), reached after the exactly-one-option validation
(`ValueError`) and `_resolve_package` (modelled by `resolve_package`)
have succeeded: a non-2xx status becomes `DeviceControlError("HTTP
{status} while updating restriction for {app_name!r}")`, any other
exception `DeviceControlError("Failed to update restriction: {err}")`. -/
def async_update_app_restriction (app_name : String) (r : HttpResult) :
    Except Exc Unit :=
  (apiCallFailureMap (.updateRestriction app_name) r).map (fun _ => ())

/-- The HTTP stage of `FamilyLinkClient.async_bulk_update_restrictions`
(api.py:261-273), reached when the package list is non-empty (an empty
list returns before any HTTP call). -/
def async_bulk_update_restrictions (r : HttpResult) : Except Exc Unit :=
  (apiCallFailureMap .bulkUpdateRestrictions r).map (fun _ => ())

/-- The HTTP stage of `FamilyLinkClient.async_set_device_bonus_time`
(api.py:358-371). -/
def async_set_device_bonus_time (r : HttpResult) : Except Exc Unit :=
  (apiCallFailureMap .deviceBonusTime r).map (fun _ => ())

/-- The HTTP stage of `FamilyLinkClient.async_set_today_limit`
(api.py:419-432). -/
def async_set_today_limit (r : HttpResult) : Except Exc Unit :=
  (apiCallFailureMap .todayLimit r).map (fun _ => ())

/-- The HTTP stage of `FamilyLinkClient.async_set_daily_limit`
(api.py:511-526). -/
def async_set_daily_limit (r : HttpResult) : Except Exc Unit :=
  (apiCallFailureMap .dailyLimit r).map (fun _ => ())

/-- `FamilyLinkClient.async_authenticate` (api.py:81-90):
`async_load_session` yields `None` for a falsy `config["cookies"]`
(→ `AuthenticationError("Authentication required")`); with cookies loaded
but `is_authenticated()` false it raises
`SessionExpiredError("Session cookies have expired")` — one of the only
two `SessionExpiredError` raises in the client, both on the session
validation path rather than in any HTTP failure mapping. -/
def async_authenticate (configCookies : List Cookie) (now : ℚ) :
    Except Exc Unit :=
  if configCookies.isEmpty then .error (.authError "Authentication required")
  else if !is_authenticated now (some configCookies) then
    .error (.sessionExpired "Session cookies have expired")
  else .ok ()

/-- `FamilyLinkClient.async_refresh_session` (api.py:92-95): clears the
in-memory session data and unconditionally raises
`SessionExpiredError("Session refresh required")` — the other session
validation raise of `SessionExpiredError`. -/
def async_refresh_session (_sd : Option (List Cookie)) :
    Option (List Cookie) × Except Exc Unit :=
  (none, .error (.sessionExpired "Session refresh required"))

/-- A child's entry in the published `restrictions` map: either the full
`parse_restrictions` output, or the degraded default the coordinator
substitutes on a failed fetch — the literal
`{"limited": [], "blocked": [], "always_allowed": []}` (note: without a
`supervisable` key). -/
inductive RestrSnap where
  | full (r : RestrOut)
  | degraded
deriving Repr

/-- A parsed device dict after the coordinator added `device_name`. -/
structure EnrichedDevice where
  dev : DeviceRecord
  device_name : String
deriving Repr

/-- The dict `_async_update_data` returns (the published snapshot). -/
structure Snapshot where
  children : List Child
  usage : List (String × List UsageRec)
  restrictions : List (String × RestrSnap)
  devices : List (String × List EnrichedDevice)
  daily_limits : List (String × List (Int × DailyEntry))
deriving Repr

/-- The outcomes of every awaited operation in one poll cycle. -/
structure FetchPlan where
  setup : Except Exc Unit
  members : Except Exc (List Child)
  appsUsage : String → Except Exc JValue
  applied : String → Except Exc (List DeviceRecord)
  deviceNames : String → Except Exc (List (String × String))
  timeLimit : String → Except Exc (List (Int × DailyEntry))

/-- Result of `_async_update_data`: either the snapshot, or the message of
the raised `UpdateFailed`; `reauthCalls` counts `_async_refresh_auth`
invocations (the re-authentication hook). -/
structure CycleResult where
  outcome : Except String Snapshot
  reauthCalls : Nat
deriving Repr

/-- `f"…{did[-6:]}"`: last `n` characters of a string. -/
def lastN (n : Nat) (s : String) : String :=
  String.mk (s.data.drop (s.data.length - n))

/-- `name_map.get(did) or f"…{did[-6:]}"`: slicing a non-string device id
raises `TypeError` (unhashable ids already raise at the `.get`). -/
def deviceNameFor (nameMap : List (String × String)) (did : JValue) :
    Except Exc String :=
  match did with
  | .str s =>
    match nameMap.lookup s with
    | some v => if v == "" then .ok ("…" ++ lastN 6 s) else .ok v
    | none => .ok ("…" ++ lastN 6 s)
  | _ => .error .typeError

/-- `dev["device_name"] = name_map.get(did) or f"…{did[-6:]}"` for one
parsed device dict. -/
def enrichDevice (nameMap : List (String × String)) (d : DeviceRecord) :
    Except Exc EnrichedDevice := do
  let nm ← deviceNameFor nameMap d.device_id
  pure ⟨d, nm⟩

/-- One iteration of the apps-and-usage loop: a captured exception (from
`gather(..., return_exceptions=True)`) degrades this child to empty data;
a successful fetch is parsed (parse failures raise out of the loop). -/
def appsStep (today : PyDate) (p : FetchPlan)
    (acc : List (String × List UsageRec) × List (String × RestrSnap))
    (c : Child) :
    Except Exc (List (String × List UsageRec) × List (String × RestrSnap)) :=
  match p.appsUsage c.child_id with
  | .error _ =>
    .ok (acc.1 ++ [(c.child_id, [])], acc.2 ++ [(c.child_id, .degraded)])
  | .ok raw => do
    let u ← parse_usage today raw
    let r ← parse_restrictions raw
    pure (acc.1 ++ [(c.child_id, u)], acc.2 ++ [(c.child_id, .full r)])

/-- One iteration of the device/daily-limit loop: failed fetches degrade to
empty values; the name map degrades to `{}` when the names fetch failed
(`isinstance(name_result, dict)` guard). -/
def devStep (p : FetchPlan)
    (acc : List (String × List EnrichedDevice) ×
      List (String × List (Int × DailyEntry)))
    (c : Child) :
    Except Exc (List (String × List EnrichedDevice) ×
      List (String × List (Int × DailyEntry))) := do
  let devPart ←
    match p.applied c.child_id with
    | .error _ => pure []
    | .ok devRecs =>
      let nameMap :=
        match p.deviceNames c.child_id with
        | .ok nm => nm
        | .error _ => []
      devRecs.mapM (enrichDevice nameMap)
  let daily :=
    match p.timeLimit c.child_id with
    | .error _ => []
    | .ok v => v
  pure (acc.1 ++ [(c.child_id, devPart)], acc.2 ++ [(c.child_id, daily)])

/-- The `try`-body of `_async_update_data`. -/
def cycleBody (today : PyDate) (p : FetchPlan) : Except Exc Snapshot := do
  let _ ← p.setup
  let children ← p.members
  let ur ← children.foldlM (appsStep today p) ([], [])
  let dv ← children.foldlM (devStep p) ([], [])
  pure ⟨children, ur.1, ur.2, dv.1, dv.2⟩

/-- The `except` clauses of `_async_update_data`: `SessionExpiredError`
first, then any `FamilyLinkException` (re-authenticating when its text
contains `"401"`), then the catch-all. -/
def handleCycleExc (e : Exc) : CycleResult :=
  match e with
  | .sessionExpired _ => ⟨.error "Session expired, please re-authenticate", 1⟩
  | e =>
    if e.isFamilyLink then
      if strContainsB e.msg "401" then
        ⟨.error "Session expired (HTTP 401), please re-authenticate", 1⟩
      else ⟨.error ("Error communicating with Family Link: " ++ e.msg), 0⟩
    else ⟨.error ("Unexpected error: " ++ e.msg), 0⟩

/-- `FamilyLinkDataUpdateCoordinator._async_update_data`. -/
def updateCycle (today : PyDate) (p : FetchPlan) : CycleResult :=
  match cycleBody today p with
  | .ok snap => ⟨.ok snap, 0⟩
  | .error e => handleCycleExc e

/-- Whether the cycle published a snapshot (returned without raising). -/
def CycleResult.published : CycleResult → Bool
  | ⟨.ok _, _⟩ => true
  | _ => false

/-- The published `usage` map, when a snapshot was published. -/
def CycleResult.snapUsage : CycleResult → Option (List (String × List UsageRec))
  | ⟨.ok s, _⟩ => some s.usage
  | _ => none

/-- The published `restrictions` map, when a snapshot was published. -/
def CycleResult.snapRestr : CycleResult → Option (List (String × RestrSnap))
  | ⟨.ok s, _⟩ => some s.restrictions
  | _ => none

/-! ### Spec-side synthetic inputs

The definitions below follow the spec's words (§8 "testable properties"),
not the source: they build the synthetic responses the refinement-style
claims feed to the parsers. -/

/-- A logical device state as described by the spec's `Device` entity. -/
structure DeviceState where
  deviceId : String
  isLocked : Bool
  usageMillis : Nat
  todayLimit : Option Int
  override : Option Int

/-- The policy string a state corresponds to on the wire (the legacy shape
derives it from the override/lock sub-structures). -/
def derivedPolicy (st : DeviceState) : String :=
  if st.override.isSome then "override"
  else if st.isLocked then "timeLimitOn"
  else "noActivePolicy"

/-- Synthetic keyed-object (JSON dict) applied-time-limits response
encoding `st`. -/
def encodeKeyed (st : DeviceState) : JValue :=
  .obj [("appliedTimeLimits", .arr [.obj (
    [("deviceId", .str st.deviceId),
     ("isLocked", .bool st.isLocked),
     ("activePolicy", .str (derivedPolicy st)),
     ("currentUsageUsedMillis", .int (st.usageMillis : Int))] ++
    (match st.todayLimit with
     | some q => [("currentUsageLimitEntry", .obj [("usageQuotaMins", .int q)])]
     | none => []))])]

/-- Synthetic legacy positional-array (JSPB) applied-time-limits response
encoding `st`: quota at index 6, used milliseconds at 19, device id at 25,
lock flag at 28, override sub-structure at 30. -/
def encodeJspb (st : DeviceState) : JValue :=
  .arr [.arr [], .arr [.arr [
    .null, .null, .null, .null, .null, .null,
    (match st.todayLimit with | some q => .int q | none => .null),
    .null, .null, .null, .null, .null, .null,
    .null, .null, .null, .null, .null, .null,
    .int (st.usageMillis : Int),
    .null, .null, .null, .null, .null,
    .str st.deviceId,
    .null, .null,
    .bool st.isLocked,
    .null,
    (match st.override with
     | some a => .arr [.arr [.null, .int a]]
     | none => .arr [])]]]

/-- A synthesized app entry for the restriction-classification claim. -/
structure AppEntry where
  title : String
  packageName : String
  hidden : Bool
  alwaysAllowedEnabled : Bool
  usageLimitMins : Option Int
  canLimit : Bool

/-- The raw `apps` element a synthesized entry denotes. -/
def encodeApp (e : AppEntry) : JValue :=
  .obj [("packageName", .str e.packageName),
    ("title", .str e.title),
    ("supervisionSetting", .obj (
      [("hidden", .bool e.hidden)] ++
      (match e.usageLimitMins with
       | some m => [("usageLimit", .obj [("dailyUsageLimitMins", .int m)])]
       | none => []) ++
      (if e.alwaysAllowedEnabled then
        [("alwaysAllowedAppInfo",
          .obj [("alwaysAllowedState", .str "alwaysAllowedStateEnabled")])]
       else []))),
    ("supervisionCapabilities",
      if e.canLimit then .arr [.str "capabilityUsageLimit"] else .arr [])]

/-- A raw apps-and-usage response containing exactly the given `apps`. -/
def appsRawOf (entries : List JValue) : JValue :=
  .obj [("apps", .arr entries)]

/-- A synthetic usage session dated `d` with the given duration string. -/
def mkUsageSession (d : PyDate) (us : String) : JValue :=
  .obj [("appId", .obj [("androidAppPackageName", .str "com.example")]),
    ("usage", .str us),
    ("date", .obj [("year", .int d.year), ("month", .int d.month),
      ("day", .int d.day)])]

/-! ### Decidable side conditions used in theorem statements -/

def exceptOk {α : Type} : Except Exc α → Bool
  | .ok _ => true
  | .error _ => false

/-- Adjacent-pairs check that a usage list is sorted descending. -/
def usageSortedB : List UsageRec → Bool
  | [] => true
  | [_] => true
  | x :: y :: rest =>
    (y.usage_seconds ≤ x.usage_seconds) && usageSortedB (y :: rest)

/-- Whether `float(s)` yields an infinity (`int()` of which raises
`OverflowError`). -/
def isInfFloat (s : String) : Bool :=
  match pyFloat? s with
  | some .inf => true
  | some .neginf => true
  | _ => false

/-- A raw `apps` element `parse_usage`'s comprehension can process without
raising. -/
def wfApp (a : JValue) : Bool :=
  match a with
  | .obj fs =>
    !(jTruthy (pyGetD fs "packageName" .null) && jTruthy (pyGetD fs "title" .null))
      || jHashable (pyGetD fs "packageName" (.str ""))
  | _ => false

/-- A raw `appUsageSessions` element `parse_usage` can process without
raising: field types match the schema and the duration does not denote an
infinity. -/
def wfSession (s : JValue) : Bool :=
  match s with
  | .obj fs =>
    (match lookupLast fs "date" with
     | none => true
     | some (.obj _) => true
     | some _ => false) &&
    (match lookupLast fs "usage" with
     | none => true
     | some (.str u) => !isInfFloat (rstripS u)
     | some _ => false) &&
    (match lookupLast fs "appId" with
     | none => true
     | some (.obj afs) =>
       (match lookupLast afs "androidAppPackageName" with
        | none => true
        | some v => jHashable v)
     | some _ => false)
  | _ => false

/-- Schema-conformant raw input for `parse_usage` (the amended safety
claim's scope). -/
def wellFormedUsageRaw (raw : JValue) : Bool :=
  match raw with
  | .obj fs =>
    (match lookupLast fs "apps" with
     | none => true
     | some (.arr apps) => apps.all wfApp
     | some _ => false) &&
    (match lookupLast fs "appUsageSessions" with
     | none => true
     | some (.arr ss) => ss.all wfSession
     | some _ => false)
  | _ => false

/-- A session the date filter of `parse_usage` skips without raising
(a dict whose date is a dict, or absent, not matching `today`). -/
def sessionSkipped (today : PyDate) (s : JValue) : Bool :=
  match s with
  | .obj fs =>
    match pyGetD fs "date" (.obj []) with
    | .obj dfs =>
      !(primEq (pyGetD dfs "year" .null) (.int today.year) &&
        primEq (pyGetD dfs "month" .null) (.int today.month) &&
        primEq (pyGetD dfs "day" .null) (.int today.day))
    | _ => false
  | _ => false

/-- Whether a parsed device record carries a string device id (so that the
coordinator name-enrichment cannot raise). -/
def isStrId (d : DeviceRecord) : Bool :=
  match d.device_id with
  | .str _ => true
  | _ => false

/-- A child whose per-cycle parses cannot raise: either its fetches failed
(any exception) or the fetched data parses and enriches cleanly. -/
def childClean (today : PyDate) (p : FetchPlan) (c : Child) : Bool :=
  (match p.appsUsage c.child_id with
   | .error _ => true
   | .ok raw => exceptOk (parse_usage today raw) && exceptOk (parse_restrictions raw)) &&
  (match p.applied c.child_id with
   | .error _ => true
   | .ok devs => devs.all isStrId)

/-- Keyed-object applied-time-limits entries that the parser drops
(non-dicts and falsy `deviceId`s). -/
def dictEntryDropped (e : JValue) : Bool :=
  match e with
  | .obj fs => !jTruthy (pyGetD fs "deviceId" (.str ""))
  | _ => true

/-- Legacy JSPB applied-time-limits entries that the parser drops
(non-lists and entries without a non-empty string at index 25). -/
def jspbEntryDropped (e : JValue) : Bool :=
  match e with
  | .arr l =>
    match l.get? 25 with
    | some (.str s) => s == ""
    | _ => true
  | _ => true

/-- Total projection out of `parse_restrictions` (empty result on error). -/
def getRestr (x : Except Exc RestrOut) : RestrOut :=
  match x with
  | .ok r => r
  | .error _ => ⟨[], [], [], []⟩

/-- The expiry decision `is_authenticated` makes for one signing cookie. -/
def cookieExpired (now : ℚ) (c : Cookie) : Bool :=
  let expires := if jTruthy c.expires then c.expires else c.expirationDate
  if jTruthy expires then
    match jNum? expires with
    | some q => if q > 0 then decide (now > q) else false
    | none => false
  else false

/-- Concrete apps-and-usage response used by the partial-failure witness:
one limited app (YouTube, 60 min) and one 3600-second session dated
2026-10-12. -/
def c4WitnessRaw : JValue :=
  .obj [("apps", .arr [.obj [
      ("packageName", .str "com.google.android.youtube"),
      ("title", .str "YouTube"),
      ("supervisionSetting",
        .obj [("usageLimit", .obj [("dailyUsageLimitMins", .int 60)])]),
      ("supervisionCapabilities", .arr [.str "capabilityUsageLimit"])]]),
    ("appUsageSessions", .arr [.obj [
      ("appId", .obj [("androidAppPackageName",
        .str "com.google.android.youtube")]),
      ("usage", .str "3600s"),
      ("date", .obj [("year", .int 2026), ("month", .int 10),
        ("day", .int 12)])]])]

/-- Fetch plan used by the partial-failure witness: child `c1` fails
transiently, child `c2` succeeds. -/
def c4WitnessPlan : FetchPlan where
  setup := .ok ()
  members := .ok [⟨"c1", "Emma", "emma@example.com"⟩,
    ⟨"c2", "Luca", "luca@example.com"⟩]
  appsUsage := fun cid =>
    if cid = "c1" then .error (.transientNetwork "timeout")
    else .ok c4WitnessRaw
  applied := fun _ => .ok []
  deviceNames := fun _ => .ok []
  timeLimit := fun _ => .ok []

/-- The synthesized app entry witnessing the supervisable-iff failure: a
limit-capable app that carries both a usage limit and the always-allowed
flag. -/
def c8Entry : AppEntry := ⟨"App", "com.a", false, true, some 30, true⟩

/-! ## Supporting lemmas -/

theorem appliedEntryDict?_eq_none {e : JValue} (h : dictEntryDropped e = true) :
    appliedEntryDict? e = none := by
  cases e <;> simp_all [dictEntryDropped, appliedEntryDict?]

theorem appliedEntryJspb?_eq_none {e : JValue} (h : jspbEntryDropped e = true) :
    appliedEntryJspb? e = none := by
  cases e with
  | arr l =>
    simp only [jspbEntryDropped] at h
    simp only [appliedEntryJspb?]
    rcases h25 : l.get? 25 with _ | v
    · simp [h25]
    · cases v <;> simp_all [h25]
  | _ => simp [appliedEntryJspb?]

theorem exceptOk_iff {α : Type} {x : Except Exc α} :
    exceptOk x = true ↔ ∃ v, x = .ok v := by
  cases x <;> simp [exceptOk]

theorem decDigitsRevFuel_stable :
    ∀ f g n, n ≤ f → n ≤ g → decDigitsRevFuel f n = decDigitsRevFuel g n := by
  intro f
  induction f with
  | zero =>
    intro g n hf _
    interval_cases n
    cases g <;> rfl
  | succ f ih =>
    intro g n hf hg
    match n, g with
    | 0, g => cases g <;> rfl
    | n + 1, g + 1 =>
      simp only [decDigitsRevFuel, List.cons.injEq, true_and]
      have hdiv : (n + 1) / 10 < n + 1 := Nat.div_lt_self (Nat.succ_pos n) (by norm_num)
      exact ih g ((n + 1) / 10) (by omega) (by omega)

theorem decDigitsRev_succ {n : Nat} (h : n ≠ 0) :
    decDigitsRev n = decChar (n % 10) :: decDigitsRev (n / 10) := by
  match n, h with
  | n + 1, _ =>
    show decDigitsRevFuel (n + 1) (n + 1) = _
    simp only [decDigitsRevFuel, List.cons.injEq, true_and]
    exact decDigitsRevFuel_stable n ((n + 1) / 10) ((n + 1) / 10)
      (by have := Nat.div_lt_self (Nat.succ_pos n) (show 1 < 10 by norm_num); omega)
      le_rfl

theorem decDigitsRev_eq_nil_iff {n : Nat} : decDigitsRev n = [] ↔ n = 0 := by
  cases n with
  | zero => simp [decDigitsRev, decDigitsRevFuel]
  | succ n => simp [decDigitsRev, decDigitsRevFuel]

theorem decChar_inj {a b : Nat} (ha : a < 10) (hb : b < 10)
    (h : decChar a = decChar b) : a = b := by
  unfold decChar at h
  interval_cases a <;> interval_cases b <;> first | rfl | exact absurd h (by decide)

theorem decChar_ne_underscore {d : Nat} (hd : d < 10) : decChar d ≠ '_' := by
  unfold decChar
  interval_cases d <;> decide

theorem decDigitsRev_ne_underscore :
    ∀ n, ∀ c ∈ decDigitsRev n, c ≠ '_' := by
  intro n
  induction n using Nat.strong_induction_on with
  | _ n ih =>
    rcases Nat.eq_zero_or_pos n with hn | hn
    · subst hn; intro c hc; simp [decDigitsRev, decDigitsRevFuel] at hc
    · rw [decDigitsRev_succ (Nat.pos_iff_ne_zero.mp hn)]
      intro c hc
      rcases List.mem_cons.mp hc with h | h
      · subst h; exact decChar_ne_underscore (Nat.mod_lt n (by norm_num))
      · exact ih (n / 10) (Nat.div_lt_self hn (by norm_num)) c h

theorem decDigitsRev_inj :
    ∀ m, ∀ n, decDigitsRev m = decDigitsRev n → m = n := by
  intro m
  induction m using Nat.strong_induction_on with
  | _ m ih =>
    intro n h
    rcases Nat.eq_zero_or_pos m with hm | hm
    · subst hm
      by_contra hn
      rw [show decDigitsRev 0 = [] from rfl] at h
      exact hn ((decDigitsRev_eq_nil_iff).mp h.symm).symm
    · rcases Nat.eq_zero_or_pos n with hn | hn
      · subst hn
        rw [show decDigitsRev 0 = [] from rfl] at h
        exact absurd ((decDigitsRev_eq_nil_iff).mp h) (by omega)
      · rw [decDigitsRev_succ (Nat.pos_iff_ne_zero.mp hm),
          decDigitsRev_succ (Nat.pos_iff_ne_zero.mp hn)] at h
        obtain ⟨hhead, htail⟩ := List.cons.injEq .. ▸ h
        have hmod := decChar_inj (Nat.mod_lt m (by norm_num))
          (Nat.mod_lt n (by norm_num)) hhead
        have hdiv := ih (m / 10) (Nat.div_lt_self hm (by norm_num)) (n / 10) htail
        omega

theorem stringDataInj {s t : String} (h : s.data = t.data) : s = t := by
  cases s; cases t; cases h; rfl

theorem pyStrNat_ne_underscore (n : Nat) :
    ∀ c ∈ (pyStrNat n).data, c ≠ '_' := by
  unfold pyStrNat
  split
  · intro c hc
    simp only [show ("0" : String).data = ['0'] from rfl, List.mem_singleton] at hc
    subst hc; decide
  · intro c hc
    simp only [show ∀ l, (String.mk l).data = l from fun _ => rfl,
      List.mem_reverse] at hc
    exact decDigitsRev_ne_underscore n c hc

theorem pyStrNat_inj {m n : Nat} (h : pyStrNat m = pyStrNat n) : m = n := by
  unfold pyStrNat at h
  by_cases hm : m = 0 <;> by_cases hn : n = 0 <;> simp [hm, hn] at h ⊢
  · -- m = 0, n ≠ 0 : "0" = mk (rev (digits n))
    have hd := congrArg String.data h
    simp only [show ("0" : String).data = ['0'] from rfl,
      show ∀ l, (String.mk l).data = l from fun _ => rfl] at hd
    have : decDigitsRev n = ['0'] := by
      have := congrArg List.reverse hd
      simpa using this.symm
    rw [decDigitsRev_succ hn] at this
    obtain ⟨hhead, htail⟩ := List.cons.injEq .. ▸ this
    have h0 : n % 10 = 0 :=
      decChar_inj (Nat.mod_lt n (by norm_num)) (by norm_num)
        (by rw [hhead]; rfl)
    have hdiv : n / 10 = 0 := decDigitsRev_eq_nil_iff.mp htail
    omega
  · -- m ≠ 0, n = 0 : symmetric
    have hd := congrArg String.data h
    simp only [show ("0" : String).data = ['0'] from rfl,
      show ∀ l, (String.mk l).data = l from fun _ => rfl] at hd
    have : decDigitsRev m = ['0'] := by
      have := congrArg List.reverse hd
      simpa using this
    rw [decDigitsRev_succ hm] at this
    obtain ⟨hhead, htail⟩ := List.cons.injEq .. ▸ this
    have h0 : m % 10 = 0 :=
      decChar_inj (Nat.mod_lt m (by norm_num)) (by norm_num)
        (by rw [hhead]; rfl)
    have hdiv : m / 10 = 0 := decDigitsRev_eq_nil_iff.mp htail
    omega
  · have hd := congrArg String.data h
    simp only [show ∀ l, (String.mk l).data = l from fun _ => rfl] at hd
    have := congrArg List.reverse hd
    simp only [List.reverse_reverse] at this
    exact decDigitsRev_inj m n this

theorem takeWhile_until_underscore (l1 l2 : List Char)
    (h : ∀ c ∈ l1, c ≠ '_') :
    (l1 ++ '_' :: l2).takeWhile (fun c => c != '_') = l1 := by
  induction l1 with
  | nil => simp [List.takeWhile_cons]
  | cons c cs ih =>
    have hc : (c != '_') = true := by
      simpa using h c (List.mem_cons_self c cs)
    simp only [List.cons_append, List.takeWhile_cons, hc, if_true]
    simp [ih (fun x hx => h x (List.mem_cons_of_mem _ hx))]

theorem sapisidhash_data (s o : String) (t : Nat) :
    (sapisidhash s o t).data =
      (pyStrNat t).data ++ '_' ::
        (sha1Hex (utf8Encode (pyStrNat t ++ " " ++ s ++ " " ++ o))).data := by
  have hu : ("_" : String).data = ['_'] := rfl
  simp [sapisidhash, String.data_append, hu]

theorem usageSortedB_insert (x : UsageRec) (l : List UsageRec)
    (h : usageSortedB l = true) :
    usageSortedB (insertDescUsage x l) = true := by
  induction l with
  | nil => rfl
  | cons y ys ih =>
    simp only [insertDescUsage]
    by_cases hxy : x.usage_seconds ≤ y.usage_seconds
    · rw [if_pos hxy]
      cases ys with
      | nil => simp [insertDescUsage, usageSortedB, hxy]
      | cons z zs =>
        simp only [usageSortedB, Bool.and_eq_true, decide_eq_true_eq] at h
        obtain ⟨hyz, hzs⟩ := h
        have hins := ih (by simpa [usageSortedB, Bool.and_eq_true] using hzs)
        simp only [insertDescUsage] at hins ⊢
        by_cases hxz : x.usage_seconds ≤ z.usage_seconds
        · rw [if_pos hxz] at hins ⊢
          simp only [usageSortedB, Bool.and_eq_true, decide_eq_true_eq] at hins ⊢
          exact ⟨hyz, hins⟩
        · rw [if_neg hxz] at hins ⊢
          simp only [usageSortedB, Bool.and_eq_true, decide_eq_true_eq] at hins ⊢
          exact ⟨hxy, hins⟩
    · rw [if_neg hxy]
      have hyx : y.usage_seconds ≤ x.usage_seconds := by omega
      cases ys with
      | nil => simp [usageSortedB, hyx]
      | cons z zs =>
        simp only [usageSortedB, Bool.and_eq_true, decide_eq_true_eq] at h ⊢
        exact ⟨hyx, h⟩

theorem usageSortedB_sortDesc (l : List UsageRec) :
    usageSortedB (sortDescUsage l) = true := by
  have key : ∀ (l acc : List UsageRec), usageSortedB acc = true →
      usageSortedB (l.foldl (fun acc x => insertDescUsage x acc) acc) = true := by
    intro l
    induction l with
    | nil => exact fun acc h => h
    | cons x xs ih =>
      intro acc h
      rw [List.foldl_cons]
      exact ih _ (usageSortedB_insert x acc h)
  exact key l [] rfl

theorem secondsOf_ok {u : String} (h : isInfFloat u = false) :
    ∃ k, pyIntOfFloat (secondsOf u) = .ok k := by
  unfold isInfFloat at h
  unfold secondsOf
  rcases hp : pyFloat? u with _ | f
  · exact ⟨_, rfl⟩
  · rw [hp] at h
    cases f with
    | finite q => exact ⟨_, rfl⟩
    | inf => exact Bool.noConfusion h
    | neginf => exact Bool.noConfusion h
    | nan => exact ⟨_, rfl⟩

theorem pkgMapStep_ok (a : JValue) (h : wfApp a = true) :
    ∀ m, ∃ v, pkgMapStep m a = .ok v := by
  intro m
  cases a with
  | obj fs =>
    unfold wfApp at h
    unfold pkgMapStep
    dsimp only [pyGet, Bind.bind, Except.bind]
    by_cases h1 : jTruthy ((lookupLast fs "packageName").getD .null) = true
    case neg => rw [if_neg h1]; exact ⟨m, rfl⟩
    case pos =>
    rw [if_pos h1]
    by_cases h2 : jTruthy ((lookupLast fs "title").getD .null) = true
    case neg => rw [if_neg h2]; exact ⟨m, rfl⟩
    case pos =>
    rw [if_pos h2]
    have hh : jHashable ((lookupLast fs "packageName").getD (.str "")) = true := by
      simp only [pyGetD] at h
      rcases (Bool.or_eq_true _ _).mp h with h' | h'
      · simp [h1, h2] at h'
      · exact h'
    rw [if_pos hh]
    exact ⟨_, rfl⟩
  | _ => exact absurd h (by simp [wfApp])

theorem processSession_ok (today : PyDate) (m : List (JValue × JValue))
    (s : JValue) (h : wfSession s = true) :
    ∃ o, processSession today m s = .ok o := by
  cases s with
  | obj fs =>
    unfold wfSession at h
    simp only [Bool.and_eq_true] at h
    obtain ⟨⟨hdate, husage⟩, happid⟩ := h
    unfold processSession
    dsimp only [pyGet, Bind.bind, Except.bind]
    rcases hd : lookupLast fs "date" with _ | dv
    · exact ⟨none, rfl⟩
    · rw [hd] at hdate
      cases dv with
      | obj dfs =>
        dsimp only [Option.getD_some]
        by_cases hy : primEq ((lookupLast dfs "year").getD .null)
            (.int today.year) = true
        case neg => rw [if_neg hy]; exact ⟨none, rfl⟩
        case pos =>
        rw [if_pos hy]
        by_cases hmo : primEq ((lookupLast dfs "month").getD .null)
            (.int today.month) = true
        case neg => rw [if_neg hmo]; exact ⟨none, rfl⟩
        case pos =>
        rw [if_pos hmo]
        by_cases hdy : primEq ((lookupLast dfs "day").getD .null)
            (.int today.day) = true
        case neg => rw [if_neg hdy]; exact ⟨none, rfl⟩
        case pos =>
        rw [if_pos hdy]
        rcases hu : lookupLast fs "usage" with _ | uv
        · -- "usage" absent: the default "0s" parses to 0 seconds
          dsimp only [Option.getD_none]
          obtain ⟨k, hk⟩ := secondsOf_ok (u := rstripS "0s") (by rfl)
          rcases ha : lookupLast fs "appId" with _ | av
          · rw [hk]; exact ⟨_, rfl⟩
          · rw [ha] at happid
            cases av with
            | obj afs =>
              have happid2 : (match lookupLast afs "androidAppPackageName" with
                  | none => true
                  | some v => jHashable v) = true := happid
              rcases hp : lookupLast afs "androidAppPackageName" with _ | pv
              · rw [hk]
                dsimp only [Option.getD_some]
                rw [hp]
                exact ⟨_, rfl⟩
              · rw [hp] at happid2
                rw [hk]
                dsimp only [Option.getD_some]
                rw [hp]
                dsimp only [Option.getD_some]
                unfold pyDictGet
                rw [if_pos happid2]
                exact ⟨_, rfl⟩
            | _ => exact Bool.noConfusion happid
        · rw [hu] at husage
          cases uv with
          | str us =>
            dsimp only [Option.getD_some]
            have hinf : isInfFloat (rstripS us) = false := by
              simpa using husage
            obtain ⟨k, hk⟩ := secondsOf_ok hinf
            rcases ha : lookupLast fs "appId" with _ | av
            · rw [hk]; exact ⟨_, rfl⟩
            · rw [ha] at happid
              cases av with
              | obj afs =>
                have happid2 : (match lookupLast afs "androidAppPackageName" with
                    | none => true
                    | some v => jHashable v) = true := happid
                rcases hp : lookupLast afs "androidAppPackageName" with _ | pv
                · rw [hk]
                  dsimp only [Option.getD_some]
                  rw [hp]
                  exact ⟨_, rfl⟩
                · rw [hp] at happid2
                  rw [hk]
                  dsimp only [Option.getD_some]
                  rw [hp]
                  dsimp only [Option.getD_some]
                  unfold pyDictGet
                  rw [if_pos happid2]
                  exact ⟨_, rfl⟩
              | _ => exact Bool.noConfusion happid
          | _ => exact Bool.noConfusion husage
      | _ => exact Bool.noConfusion hdate
  | _ => exact absurd h (by simp [wfSession])

theorem sessionStep_ok (today : PyDate) (m : List (JValue × JValue))
    (s : JValue) (h : wfSession s = true) :
    ∀ acc, ∃ v, sessionStep today m acc s = .ok v := by
  intro acc
  obtain ⟨o, ho⟩ := processSession_ok today m s h
  unfold sessionStep
  rw [ho]
  cases o <;> exact ⟨_, rfl⟩

theorem processSession_skipped (today : PyDate) (m : List (JValue × JValue))
    (s : JValue) (h : sessionSkipped today s = true) :
    processSession today m s = .ok none := by
  cases s with
  | obj fs =>
    unfold sessionSkipped at h
    simp only [pyGetD] at h
    unfold processSession
    dsimp only [pyGet, Bind.bind, Except.bind]
    rcases hd : lookupLast fs "date" with _ | dv
    · rfl
    · rw [hd] at h
      cases dv with
      | obj dfs =>
        dsimp only [Option.getD_some] at h ⊢
        by_cases hy : primEq ((lookupLast dfs "year").getD .null)
            (.int today.year) = true
        · rw [if_pos hy]
          by_cases hmo : primEq ((lookupLast dfs "month").getD .null)
              (.int today.month) = true
          · rw [if_pos hmo]
            by_cases hdy : primEq ((lookupLast dfs "day").getD .null)
                (.int today.day) = true
            · exfalso
              simp only [hy, hmo, hdy, Bool.and_true, Bool.not_true] at h
              exact Bool.noConfusion h
            · rw [if_neg hdy]; rfl
          · rw [if_neg hmo]; rfl
        · rw [if_neg hy]; rfl
      | _ => exact Bool.noConfusion h
  | _ => exact Bool.noConfusion h

theorem foldlM_session_skip (today : PyDate) (m : List (JValue × JValue))
    (s : JValue) (hs : processSession today m s = .ok none) :
    ∀ (xs ys : List JValue) (acc : List UsageRec),
      (xs ++ s :: ys).foldlM (sessionStep today m) acc =
      (xs ++ ys).foldlM (sessionStep today m) acc := by
  intro xs
  induction xs with
  | nil =>
    intro ys acc
    simp only [List.nil_append, List.foldlM_cons]
    rw [show sessionStep today m acc s = .ok acc by
      unfold sessionStep; rw [hs]; rfl]
    rfl
  | cons x xs ih =>
    intro ys acc
    simp only [List.cons_append, List.foldlM_cons]
    rcases hx : sessionStep today m acc x with e | v
    · rfl
    · exact ih ys v

/-! ## Claim theorems -/

/-- **C10.** An `app_name` containing a dot is treated verbatim as a
package name by `_resolve_package`: it is returned unchanged, the
title→package cache is neither consulted nor repopulated, and no
apps-and-usage fetch happens. -/
theorem resolve_package_dot_verbatim
    (cache : List (String × List (String × JValue)))
    (fetchRaw : Except Exc JValue) (child_id app_name : String)
    (h : strContainsB app_name "." = true) :
    resolve_package cache fetchRaw child_id app_name =
      ⟨.ok (.str app_name), cache, false⟩ := by
  simp [resolve_package, h]

/-- Witness for `resolve_package_dot_verbatim` at a dotted package name
with a cold cache and a fetch that would fail. -/
theorem resolve_package_dot_verbatim_witness :
    strContainsB "com.android.chrome" "." = true ∧
    resolve_package [] (.error .typeError) "child1" "com.android.chrome" =
      ⟨.ok (.str "com.android.chrome"), [], false⟩ :=
  ⟨by decide,
   resolve_package_dot_verbatim [] (.error .typeError) "child1"
     "com.android.chrome" (by decide)⟩

/-- **C7.** In both response shapes, an applied-time-limits record that does
not yield a non-empty device identifier is dropped while every sibling
record of the same batch still parses; the parser itself is a total
function (the source guards every subscript and wraps `int()` in
`try/except`), so it never raises. -/
theorem applied_malformed_record_dropped
    (xs ys : List JValue) (e meta : JValue)
    (hd : dictEntryDropped e = true) (hj : jspbEntryDropped e = true) :
    parse_applied_time_limits
        (.obj [("appliedTimeLimits", .arr (xs ++ e :: ys))]) =
      parse_applied_time_limits
        (.obj [("appliedTimeLimits", .arr (xs ++ ys))]) ∧
    parse_applied_time_limits (.arr [meta, .arr (xs ++ e :: ys)]) =
      parse_applied_time_limits (.arr [meta, .arr (xs ++ ys)]) := by
  constructor
  · simp [parse_applied_time_limits, pyGetD, lookupLast,
      List.filterMap_append, appliedEntryDict?_eq_none hd]
  · simp [parse_applied_time_limits,
      List.filterMap_append, appliedEntryJspb?_eq_none hj]

/-- Witness for `applied_malformed_record_dropped`: a record with an empty
device id between two valid records, in both shapes. -/
theorem applied_malformed_record_dropped_witness :
    dictEntryDropped (.obj [("isLocked", .bool true)]) = true ∧
    jspbEntryDropped (.obj [("isLocked", .bool true)]) = true ∧
    parse_applied_time_limits
        (.obj [("appliedTimeLimits",
          .arr [.obj [("deviceId", .str "devA")],
            .obj [("isLocked", .bool true)],
            .obj [("deviceId", .str "devB")]])]) =
      parse_applied_time_limits
        (.obj [("appliedTimeLimits",
          .arr [.obj [("deviceId", .str "devA")],
            .obj [("deviceId", .str "devB")]])]) := by
  refine ⟨by decide, by decide, ?_⟩
  exact (applied_malformed_record_dropped
    [.obj [("deviceId", .str "devA")]] [.obj [("deviceId", .str "devB")]]
    (.obj [("isLocked", .bool true)]) .null (by decide) (by decide)).1

/-- **C2 (amended).** For every API-client call, the endpoint family
determines a single error class used for both failure kinds: every non-2xx
response — 401 and 403 included — is reported as that class with
`"HTTP {status}"` rendered in its message, and every transport-level
failure is reported as the *same* class with a generic message;
the class is `NetworkError` for the read endpoints and
`DeviceControlError` for the write endpoints, and no HTTP outcome of any
endpoint is reported as `SessionExpired` (nor as a `RemoteError` /
`TransientNetworkError`, which the client never raises).
`SessionExpiredError` originates only in session validation —
`async_authenticate` on loaded-but-stale cookies and
`async_refresh_session` — and a 401 is escalated to re-authentication only
by the coordinator, which string-matches `"401"` in the error text. -/
theorem client_failure_mapping (ep : Endpoint) (status : Nat) (m msg : String)
    (today : PyDate) (p : FetchPlan) (cookies : List Cookie) (now : ℚ) :
    (apiCallFailureMap ep (.clientResponseError status) =
      .error (endpointError ep
        ("HTTP " ++ pyStrNat status ++ " while " ++ endpointHttpDesc ep))) ∧
    (apiCallFailureMap ep (.otherExc m) =
      .error (endpointError ep (endpointFailDesc ep ++ ": " ++ m))) ∧
    (ep.isWrite = false → endpointError ep m = .networkError m) ∧
    (ep.isWrite = true → endpointError ep m = .deviceControl m) ∧
    (∀ r e, apiCallFailureMap ep r = .error e → e.isSessionExpired = false) ∧
    (cookies.isEmpty = false → is_authenticated now (some cookies) = false →
      async_authenticate cookies now =
        .error (.sessionExpired "Session cookies have expired")) ∧
    ((async_refresh_session (some cookies)).2 =
      .error (.sessionExpired "Session refresh required")) ∧
    (strContainsB msg "401" = true → p.setup = .ok () →
      p.members = .error (.networkError msg) →
      updateCycle today p =
        ⟨.error "Session expired (HTTP 401), please re-authenticate", 1⟩) := by
  refine ⟨rfl, rfl, ?_, ?_, ?_, ?_, rfl, ?_⟩
  · intro h; simp [endpointError, h]
  · intro h; simp [endpointError, h]
  · intro r e he
    have hse : ∀ s : String, (endpointError ep s).isSessionExpired = false := by
      intro s
      cases hw : ep.isWrite <;> simp [endpointError, hw, Exc.isSessionExpired]
    cases r with
    | ok body =>
      simp only [apiCallFailureMap] at he
      exact Except.noConfusion he
    | clientResponseError s =>
      simp only [apiCallFailureMap, Except.error.injEq] at he
      rw [← he]; exact hse _
    | otherExc mm =>
      simp only [apiCallFailureMap, Except.error.injEq] at he
      rw [← he]; exact hse _
  · intro hne hia
    simp [async_authenticate, hne, hia]
  · intro h401 hs hm
    simp [updateCycle, cycleBody, hs, hm, handleCycleExc, Exc.isFamilyLink,
      Exc.msg, h401, Bind.bind, Except.bind]

/-- Witness for `client_failure_mapping`: a 401 on the members read, a 403
on a restriction write, a timeout on the members read, the
non-`SessionExpired` nature of the 401 report, `async_authenticate` on an
expired SAPISID cookie, and a cycle whose roster fetch failed with the 401
`NetworkError`. -/
theorem client_failure_mapping_witness :
    apiCallFailureMap .members (.clientResponseError 401) =
      .error (.networkError "HTTP 401 while fetching members") ∧
    apiCallFailureMap (.updateRestriction "YouTube") (.clientResponseError 403) =
      .error (.deviceControl
        ("HTTP 403 while updating restriction for " ++ sq ++ "YouTube" ++ sq)) ∧
    apiCallFailureMap .members (.otherExc "timeout") =
      .error (.networkError "Failed to fetch members: timeout") ∧
    Exc.isSessionExpired (.networkError "HTTP 401 while fetching members") =
      false ∧
    async_authenticate [⟨"SAPISID", "x", ".google.com", .int 100, .null⟩]
        1000 =
      .error (.sessionExpired "Session cookies have expired") ∧
    updateCycle ⟨2026, 10, 12⟩
        { setup := .ok (),
          members := .error (.networkError "HTTP 401 while fetching members"),
          appsUsage := fun _ => .ok (.obj []),
          applied := fun _ => .ok [],
          deviceNames := fun _ => .ok [],
          timeLimit := fun _ => .ok [] } =
      ⟨.error "Session expired (HTTP 401), please re-authenticate", 1⟩ := by
  have h1 := client_failure_mapping .members 401 "timeout"
    "HTTP 401 while fetching members" ⟨2026, 10, 12⟩
    { setup := .ok (),
      members := .error (.networkError "HTTP 401 while fetching members"),
      appsUsage := fun _ => .ok (.obj []),
      applied := fun _ => .ok [],
      deviceNames := fun _ => .ok [],
      timeLimit := fun _ => .ok [] }
    [⟨"SAPISID", "x", ".google.com", .int 100, .null⟩] 1000
  have h2 := client_failure_mapping (.updateRestriction "YouTube") 403 "x"
    "x" ⟨2026, 10, 12⟩
    { setup := .ok (),
      members := .ok [],
      appsUsage := fun _ => .ok (.obj []),
      applied := fun _ => .ok [],
      deviceNames := fun _ => .ok [],
      timeLimit := fun _ => .ok [] } [] 0
  refine ⟨h1.1, h2.1, h1.2.1, ?_, ?_, ?_⟩
  · exact h1.2.2.2.2.1 (.clientResponseError 401)
      (.networkError "HTTP 401 while fetching members") rfl
  · exact h1.2.2.2.2.2.1 rfl (by decide)
  · exact h1.2.2.2.2.2.2.2 (by decide) rfl rfl

/-- **C2 counterexample.** As stated, the claim is false on the code: an
HTTP 401 from the members endpoint is reported as `NetworkError` (a
`FamilyLinkException`), not as `SessionExpiredError`; a transport failure
on the same endpoint is reported as the same `NetworkError` type rather
than a distinct `TransientNetworkError`; and a non-2xx on a write endpoint
is reported as `DeviceControlError` rather than a uniform
`RemoteError`-like status carrier. -/
theorem client_failure_mapping_counterexample :
    async_get_members (.clientResponseError 401) =
      .error (.networkError "HTTP 401 while fetching members") ∧
    Exc.isSessionExpired (.networkError "HTTP 401 while fetching members") =
      false ∧
    async_get_members (.otherExc "Connection reset by peer") =
      .error (.networkError
        "Failed to fetch members: Connection reset by peer") ∧
    async_set_daily_limit (.clientResponseError 500) =
      .error (.deviceControl "HTTP 500 while setting daily limit") :=
  ⟨rfl, rfl, rfl, rfl⟩

/-- **C6.** The request signature is
`"{now_ms}_{sha1_hex(now_ms + ' ' + secret + ' ' + origin)}"`; the function
is deterministic for a fixed timestamp, and two calls with different
timestamps yield different signatures. -/
theorem signer_sapisidhash_spec (secret origin : String) (t1 t2 : Nat) :
    (sapisidhash secret origin t1 =
      pyStrNat t1 ++ "_" ++
        sha1Hex (utf8Encode (pyStrNat t1 ++ " " ++ secret ++ " " ++ origin))) ∧
    (∀ s2 o2 t3, secret = s2 → origin = o2 → t1 = t3 →
      sapisidhash secret origin t1 = sapisidhash s2 o2 t3) ∧
    (t1 ≠ t2 → sapisidhash secret origin t1 ≠ sapisidhash secret origin t2) := by
  refine ⟨rfl, fun s2 o2 t3 hs ho ht => by rw [hs, ho, ht], fun hne heq => ?_⟩
  apply hne
  have hd := congrArg String.data heq
  rw [sapisidhash_data, sapisidhash_data] at hd
  have htw := congrArg (List.takeWhile (fun c => c != '_')) hd
  rw [takeWhile_until_underscore _ _ (pyStrNat_ne_underscore t1),
    takeWhile_until_underscore _ _ (pyStrNat_ne_underscore t2)] at htw
  exact pyStrNat_inj (stringDataInj htw)

/-- Witness for `signer_sapisidhash_spec` at two distinct timestamps. -/
theorem signer_sapisidhash_spec_witness :
    sapisidhash "SECRET" "https://families.google.com" 1700000000000 =
      sapisidhash "SECRET" "https://families.google.com" 1700000000000 ∧
    sapisidhash "SECRET" "https://families.google.com" 1700000000000 ≠
      sapisidhash "SECRET" "https://families.google.com" 1700000000001 :=
  ⟨(signer_sapisidhash_spec "SECRET" "https://families.google.com"
      1700000000000 1700000000001).2.1 "SECRET" "https://families.google.com"
      1700000000000 rfl rfl rfl,
   (signer_sapisidhash_spec "SECRET" "https://families.google.com"
      1700000000000 1700000000001).2.2 (by norm_num)⟩

/-- **C5 (amended).** `is_authenticated` is decided by the *first* cookie
whose name is in the SAPISID family: it returns `true` iff cookies are
loaded and that first signing cookie (if any) does not carry a positive
numeric expiry in the past; absent any signing cookie it returns `true`.
A session with no SAPISID-family cookie at all makes `_get_sapisid` fail
with `AuthenticationError` (the spec's `NoSecret`) even though
`is_authenticated` returns `true`. -/
theorem session_usability (now : ℚ) (cookies : List Cookie) :
    (is_authenticated now none = false) ∧
    (is_authenticated now (some cookies) =
      (!cookies.isEmpty &&
        (match cookies.find? (fun c => sapisidNames.contains c.name) with
         | some c => !cookieExpired now c
         | none => true))) ∧
    (cookies.all (fun c => !sapisidNames.contains c.name) = true →
      getSapisid (some cookies) =
        .error (.authError
          "SAPISID cookie not found - please re-authenticate via the integration options.")) := by
  refine ⟨rfl, ?_, ?_⟩
  · show is_authenticated now (some cookies) = _
    have hloop : ∀ cs : List Cookie, isAuthLoop now cs =
        (match cs.find? (fun c => sapisidNames.contains c.name) with
         | some c => !cookieExpired now c
         | none => true) := by
      intro cs
      induction cs with
      | nil => rfl
      | cons c cs ih =>
        by_cases h : sapisidNames.contains c.name = true
        · unfold isAuthLoop
          rw [if_pos h]
          simp only [List.find?, h]
          rfl
        · have hf : sapisidNames.contains c.name = false := by simpa using h
          unfold isAuthLoop
          rw [if_neg h, ih]
          simp only [List.find?, hf]
    cases cookies with
    | nil => rfl
    | cons c cs =>
      simp only [is_authenticated, List.isEmpty_cons, Bool.not_false,
        Bool.true_and]
      exact hloop (c :: cs)
  · intro h
    have hall : ∀ c ∈ cookies, c.name ∉ sapisidNames := by
      intro c hc
      have := (List.all_eq_true.mp h) c hc
      simpa using this
    simp only [getSapisid]
    have h1 : cookies.find?
        (fun c => c.name == "SAPISID" && strContainsB c.domain ".google.com") =
        none := by
      rw [List.find?_eq_none]
      intro c hc
      have hmem := hall c hc
      have hne : c.name ≠ "SAPISID" := by
        intro he
        exact hmem (he ▸ (by simp [sapisidNames]))
      simp [hne]
    have h2 : cookies.find?
        (fun c => c.name == "__Secure-3PAPISID" || c.name == "APISID") =
        none := by
      rw [List.find?_eq_none]
      intro c hc
      have hmem := hall c hc
      have hne3 : c.name ≠ "__Secure-3PAPISID" := by
        intro he
        exact hmem (he ▸ (by simp [sapisidNames]))
      have hneA : c.name ≠ "APISID" := by
        intro he
        exact hmem (he ▸ (by simp [sapisidNames]))
      simp [hne3, hneA]
    rw [h1, h2]

/-- Witness for `session_usability`: a session holding only a
non-signing cookie is usable, yet `_get_sapisid` reports the
`NoSecret`-class failure. -/
theorem session_usability_witness :
    is_authenticated 1000 (some [⟨"NID", "v", ".google.com", .null, .null⟩]) =
      true ∧
    getSapisid (some [⟨"NID", "v", ".google.com", .null, .null⟩]) =
      .error (.authError
        "SAPISID cookie not found - please re-authenticate via the integration options.") := by
  have h := session_usability 1000 [⟨"NID", "v", ".google.com", .null, .null⟩]
  refine ⟨?_, h.2.2 (by decide)⟩
  rw [h.2.1]
  decide

theorem foldlM_ok {α β : Type} {f : β → α → Except Exc β} :
    ∀ (l : List α) (b : β), (∀ a ∈ l, ∀ acc, ∃ v, f acc a = .ok v) →
      ∃ v, l.foldlM f b = .ok v := by
  intro l
  induction l with
  | nil => exact fun b _ => ⟨b, rfl⟩
  | cons a l ih =>
    intro b h
    obtain ⟨v, hv⟩ := h a (List.mem_cons_self a l) b
    rw [List.foldlM_cons, hv]
    show ∃ w, Except.bind (.ok v) _ = .ok w
    exact ih v fun x hx acc => h x (List.mem_cons_of_mem a hx) acc

theorem mapM_ok {α β : Type} {f : α → Except Exc β} :
    ∀ l : List α, (∀ a ∈ l, ∃ v, f a = .ok v) → ∃ v, l.mapM f = .ok v := by
  intro l
  induction l with
  | nil => exact fun _ => ⟨[], rfl⟩
  | cons a l ih =>
    intro h
    obtain ⟨v, hv⟩ := h a (List.mem_cons_self a l)
    obtain ⟨w, hw⟩ := ih fun x hx => h x (List.mem_cons_of_mem a hx)
    rw [List.mapM_cons, hv, hw]
    exact ⟨v :: w, rfl⟩

theorem deviceNameFor_str_ok (nameMap : List (String × String)) (s : String) :
    ∃ v, deviceNameFor nameMap (.str s) = .ok v := by
  unfold deviceNameFor
  dsimp only
  rcases hl : nameMap.lookup s with _ | v
  · exact ⟨_, rfl⟩
  · dsimp only
    by_cases hv : (v == "") = true
    · rw [if_pos hv]; exact ⟨_, rfl⟩
    · rw [if_neg hv]; exact ⟨_, rfl⟩

theorem enrichDevice_ok (nameMap : List (String × String)) (d : DeviceRecord)
    (h : isStrId d = true) : ∃ v, enrichDevice nameMap d = .ok v := by
  have hstr : ∃ s, d.device_id = .str s := by
    unfold isStrId at h
    rcases hdid : d.device_id with _ | _ | _ | _ | s | _ | _ <;>
        rw [hdid] at h <;> simp at h
    exact ⟨s, rfl⟩
  obtain ⟨s, hdid⟩ := hstr
  obtain ⟨v, hv⟩ := deviceNameFor_str_ok nameMap s
  unfold enrichDevice
  rw [hdid, hv]
  exact ⟨_, rfl⟩

theorem appsStep_ok (today : PyDate) (p : FetchPlan) (c : Child)
    (h : childClean today p c = true) :
    ∀ acc, ∃ v, appsStep today p acc c = .ok v := by
  intro acc
  unfold appsStep
  rcases hau : p.appsUsage c.child_id with e | raw
  · exact ⟨_, rfl⟩
  · unfold childClean at h
    rw [hau] at h
    simp only [Bool.and_eq_true] at h
    obtain ⟨⟨hu, hr⟩, _⟩ := h
    obtain ⟨u, hu'⟩ := exceptOk_iff.mp hu
    obtain ⟨r, hr'⟩ := exceptOk_iff.mp hr
    dsimp only
    rw [hu', hr']
    exact ⟨_, rfl⟩

theorem devStep_ok (today : PyDate) (p : FetchPlan) (c : Child)
    (h : childClean today p c = true) :
    ∀ acc, ∃ v, devStep p acc c = .ok v := by
  intro acc
  unfold devStep
  rcases happ : p.applied c.child_id with e | devs
  · exact ⟨_, rfl⟩
  · unfold childClean at h
    rw [happ] at h
    simp only [Bool.and_eq_true] at h
    obtain ⟨_, hdevs⟩ := h
    dsimp only
    obtain ⟨l, hl⟩ := @mapM_ok DeviceRecord EnrichedDevice
      (enrichDevice (match p.deviceNames c.child_id with
        | .ok nm => nm
        | .error _ => [])) devs
      (fun d hd => enrichDevice_ok _ d (List.all_eq_true.mp hdevs d hd))
    rw [hl]
    exact ⟨_, rfl⟩

/-- **C1 (amended).** A `SessionExpired` raised while establishing the
session or fetching the member roster aborts the cycle (no snapshot; the
re-authentication hook fires exactly once).  A `SessionExpired` captured
from a *per-child* fetch, however, does **not** abort the cycle: because
the per-child fetches run under `asyncio.gather(...,
return_exceptions=True)`, any per-child exception — `SessionExpired`
included — is absorbed into empty defaults and a snapshot is still
published with the hook not invoked. -/
theorem coordinator_session_expiry (today : PyDate) (p : FetchPlan)
    (cs : List Child) (m : String) :
    (p.setup = .ok () → p.members = .error (.sessionExpired m) →
      updateCycle today p =
        ⟨.error "Session expired, please re-authenticate", 1⟩) ∧
    (p.setup = .ok () → p.members = .ok cs →
      cs.all (childClean today p) = true →
      (updateCycle today p).published = true ∧
      (updateCycle today p).reauthCalls = 0) := by
  constructor
  · intro hs hm
    simp [updateCycle, cycleBody, hs, hm, handleCycleExc, Bind.bind,
      Except.bind]
  · intro hs hm hclean
    obtain ⟨ur, hur⟩ := foldlM_ok cs ([], []) fun c hc acc =>
      appsStep_ok today p c (List.all_eq_true.mp hclean c hc) acc
    obtain ⟨dv, hdv⟩ := foldlM_ok cs ([], []) fun c hc acc =>
      devStep_ok today p c (List.all_eq_true.mp hclean c hc) acc
    simp [updateCycle, cycleBody, hs, hm, hur, hdv, Bind.bind, Except.bind,
      Pure.pure, Except.pure, CycleResult.published]

/-- Witness for `coordinator_session_expiry`: a roster-fetch expiry aborts
with one hook invocation, while a per-child expiry (child `c1` below)
still publishes. -/
theorem coordinator_session_expiry_witness :
    updateCycle ⟨2026, 10, 12⟩
        { setup := .ok (),
          members := .error (.sessionExpired "Session cookies have expired"),
          appsUsage := fun _ => .ok (.obj []),
          applied := fun _ => .ok [],
          deviceNames := fun _ => .ok [],
          timeLimit := fun _ => .ok [] } =
      ⟨.error "Session expired, please re-authenticate", 1⟩ ∧
    (updateCycle ⟨2026, 10, 12⟩
        { setup := .ok (),
          members := .ok [⟨"c1", "Emma", "emma@example.com"⟩],
          appsUsage := fun _ =>
            .error (.sessionExpired "Session cookies have expired"),
          applied := fun _ => .ok [],
          deviceNames := fun _ => .ok [],
          timeLimit := fun _ => .ok [] }).published = true ∧
    (updateCycle ⟨2026, 10, 12⟩
        { setup := .ok (),
          members := .ok [⟨"c1", "Emma", "emma@example.com"⟩],
          appsUsage := fun _ =>
            .error (.sessionExpired "Session cookies have expired"),
          applied := fun _ => .ok [],
          deviceNames := fun _ => .ok [],
          timeLimit := fun _ => .ok [] }).reauthCalls = 0 := by
  refine ⟨(coordinator_session_expiry ⟨2026, 10, 12⟩ _ []
    "Session cookies have expired").1 rfl rfl, ?_, ?_⟩
  · exact ((coordinator_session_expiry ⟨2026, 10, 12⟩ _
      [⟨"c1", "Emma", "emma@example.com"⟩] "").2 rfl rfl (by decide)).1
  · exact ((coordinator_session_expiry ⟨2026, 10, 12⟩ _
      [⟨"c1", "Emma", "emma@example.com"⟩] "").2 rfl rfl (by decide)).2

/-- **C1 counterexample.** As stated, the claim is false on the code: with
one child whose apps-and-usage fetch raises `SessionExpiredError`, the
cycle still publishes a snapshot and never invokes the re-authentication
hook (the coordinator only reaches its `except SessionExpiredError` clause
for exceptions raised *outside* the gathered per-child fetches). -/
theorem coordinator_session_expiry_counterexample :
    (updateCycle ⟨2026, 10, 12⟩
        { setup := .ok (),
          members := .ok [⟨"c1", "Emma", "emma@example.com"⟩],
          appsUsage := fun _ =>
            .error (.sessionExpired "Session cookies have expired"),
          applied := fun _ =>
            .error (.sessionExpired "Session cookies have expired"),
          deviceNames := fun _ => .ok [],
          timeLimit := fun _ => .ok [] }).published = true ∧
    (updateCycle ⟨2026, 10, 12⟩
        { setup := .ok (),
          members := .ok [⟨"c1", "Emma", "emma@example.com"⟩],
          appsUsage := fun _ =>
            .error (.sessionExpired "Session cookies have expired"),
          applied := fun _ =>
            .error (.sessionExpired "Session cookies have expired"),
          deviceNames := fun _ => .ok [],
          timeLimit := fun _ => .ok [] }).reauthCalls = 0 := by
  constructor <;> rfl

/-- **C4.** A cycle in which child A's apps-and-usage fetch fails with
`TransientNetworkError` while child B's succeeds still publishes a
snapshot without invoking re-authentication: A's usage degrades to `[]`
and its restrictions to the empty default, while B's parsed data is
present in full. -/
theorem coordinator_partial_failure (today : PyDate) (p : FetchPlan)
    (a b : Child) (m : String) (rawB : JValue) (uB : List UsageRec)
    (rB : RestrOut)
    (hs : p.setup = .ok ())
    (hm : p.members = .ok [a, b])
    (ha : p.appsUsage a.child_id = .error (.transientNetwork m))
    (hb : p.appsUsage b.child_id = .ok rawB)
    (hub : parse_usage today rawB = .ok uB)
    (hrb : parse_restrictions rawB = .ok rB)
    (hclean : [a, b].all (childClean today p) = true) :
    (updateCycle today p).reauthCalls = 0 ∧
    (updateCycle today p).snapUsage =
      some [(a.child_id, []), (b.child_id, uB)] ∧
    (updateCycle today p).snapRestr =
      some [(a.child_id, .degraded), (b.child_id, .full rB)] := by
  obtain ⟨dv, hdv⟩ := foldlM_ok [a, b] ([], []) fun c hc acc =>
    devStep_ok today p c (List.all_eq_true.mp hclean c hc) acc
  have hur : List.foldlM (appsStep today p) ([], []) [a, b] =
      .ok ([(a.child_id, []), (b.child_id, uB)],
        [(a.child_id, .degraded), (b.child_id, .full rB)]) := by
    rw [List.foldlM_cons]
    rw [show appsStep today p ([], []) a =
      .ok ([(a.child_id, [])], [(a.child_id, .degraded)]) by
        unfold appsStep; rw [ha]; rfl]
    show List.foldlM (appsStep today p) _ [b] = _
    rw [List.foldlM_cons]
    rw [show appsStep today p
        ([(a.child_id, [])], [(a.child_id, RestrSnap.degraded)]) b =
      .ok ([(a.child_id, []), (b.child_id, uB)],
        [(a.child_id, .degraded), (b.child_id, .full rB)]) by
        unfold appsStep; rw [hb]; dsimp only; rw [hub, hrb]; rfl]
    rfl
  simp [updateCycle, cycleBody, hs, hm, hur, hdv, Bind.bind, Except.bind,
    Pure.pure, Except.pure, CycleResult.snapUsage, CycleResult.snapRestr]

/-- Witness for `coordinator_partial_failure`: child `c1` fails
transiently, child `c2` returns one limited app (YouTube, 60 min limit)
with one 3600-second session dated today. -/
theorem coordinator_partial_failure_witness :
    (updateCycle ⟨2026, 10, 12⟩ c4WitnessPlan).reauthCalls = 0 ∧
    (updateCycle ⟨2026, 10, 12⟩ c4WitnessPlan).snapUsage =
      some [("c1", []),
        ("c2", [⟨.str "YouTube", 3600⟩])] ∧
    (updateCycle ⟨2026, 10, 12⟩ c4WitnessPlan).snapRestr =
      some [("c1", .degraded),
        ("c2", .full ⟨[⟨.str "YouTube", .int 60, .str "com.google.android.youtube"⟩],
          [], [], [⟨.str "com.google.android.youtube", .str "YouTube"⟩]⟩)] :=
  coordinator_partial_failure ⟨2026, 10, 12⟩ c4WitnessPlan
    ⟨"c1", "Emma", "emma@example.com"⟩ ⟨"c2", "Luca", "luca@example.com"⟩
    "timeout" c4WitnessRaw
    [⟨.str "YouTube", 3600⟩]
    ⟨[⟨.str "YouTube", .int 60, .str "com.google.android.youtube"⟩], [], [],
      [⟨.str "com.google.android.youtube", .str "YouTube"⟩]⟩
    rfl rfl rfl rfl rfl rfl (by decide)

/-- **C3 (amended).** For every logical device state *without an active
override*, the keyed-object and the legacy positional-array encoding of
that state normalize to identical typed records.  (States with an active
override necessarily differ: the keyed-object branch always reports
`override_action = None`.) -/
theorem applied_normalizer_equiv (st : DeviceState)
    (hid : st.deviceId ≠ "") (hov : st.override = none) :
    parse_applied_time_limits (encodeKeyed st) =
      parse_applied_time_limits (encodeJspb st) := by
  obtain ⟨did, lock, millis, tl, ov⟩ := st
  simp only at hid hov
  subst hov
  have h1 : jTruthy (JValue.str did) = true := by simp [jTruthy, hid]
  cases tl <;> cases lock <;>
    simp [parse_applied_time_limits, encodeKeyed, encodeJspb,
      appliedEntryDict?, appliedEntryJspb?, derivedPolicy, pyGetD,
      lookupLast, pyInt?, jTruthy, h1, hid]

/-- Witness for `applied_normalizer_equiv` at a locked device with 3639340
ms of use and a 95-minute quota. -/
theorem applied_normalizer_equiv_witness :
    ("dev1" : String) ≠ "" ∧
    parse_applied_time_limits (encodeKeyed ⟨"dev1", true, 3639340, some 95, none⟩) =
      parse_applied_time_limits (encodeJspb ⟨"dev1", true, 3639340, some 95, none⟩) :=
  ⟨by decide,
   applied_normalizer_equiv ⟨"dev1", true, 3639340, some 95, none⟩
     (by decide) rfl⟩

/-- **C3 counterexample.** As stated, the claim is false on the code: for a
device state with an active override (action code 2), the legacy
positional-array response normalizes with `override_action = 2` while the
keyed-object response — which never exposes an override action — yields
`override_action = None`, so the outputs differ. -/
theorem applied_normalizer_equiv_counterexample :
    parse_applied_time_limits
        (encodeKeyed ⟨"dev1", false, 120000, some 60, some 2⟩) ≠
      parse_applied_time_limits
        (encodeJspb ⟨"dev1", false, 120000, some 60, some 2⟩) := by
  intro h
  have hm := congrArg (List.map (fun d => d.override_action)) h
  rw [show parse_applied_time_limits
        (encodeKeyed ⟨"dev1", false, 120000, some 60, some 2⟩) =
      [⟨.str "dev1", false, .str "override", none, 2, some 60⟩] from rfl,
    show parse_applied_time_limits
        (encodeJspb ⟨"dev1", false, 120000, some 60, some 2⟩) =
      [⟨.str "dev1", false, .str "override", some 2, 2, some 60⟩] from rfl] at hm
  simp at hm

/-- **C8 (amended).** For every synthesized app entry the restriction
parser assigns exactly one of the four states (the three output lists hold
at most one entry in total; none of them means Unrestricted), with each
state characterized by the entry's raw flags; the entry is in the derived
supervisable set iff it is capability-flagged and carries neither the
blocked (`hidden`) flag nor the always-allowed flag — note the flags, not
the assigned states: an entry with both a usage limit and the
always-allowed flag is classified `Limited` yet excluded from
`supervisable`. -/
theorem restriction_classification (e : AppEntry) :
    exceptOk (parse_restrictions (appsRawOf [encodeApp e])) = true ∧
    ((getRestr (parse_restrictions (appsRawOf [encodeApp e]))).blocked.length +
      (getRestr (parse_restrictions (appsRawOf [encodeApp e]))).limited.length +
      (getRestr (parse_restrictions (appsRawOf [encodeApp e]))).always_allowed.length
      ≤ 1) ∧
    ((getRestr (parse_restrictions (appsRawOf [encodeApp e]))).blocked ≠ [] ↔
      e.hidden = true) ∧
    ((getRestr (parse_restrictions (appsRawOf [encodeApp e]))).limited ≠ [] ↔
      (e.hidden = false ∧ e.usageLimitMins.isSome = true)) ∧
    ((getRestr (parse_restrictions (appsRawOf [encodeApp e]))).always_allowed ≠ [] ↔
      (e.hidden = false ∧ e.usageLimitMins = none ∧
        e.alwaysAllowedEnabled = true)) ∧
    ((getRestr (parse_restrictions (appsRawOf [encodeApp e]))).supervisable ≠ [] ↔
      (e.canLimit = true ∧ e.hidden = false ∧
        e.alwaysAllowedEnabled = false)) := by
  obtain ⟨t, pn, hid, aa, ul, cl⟩ := e
  cases hid <;> cases aa <;> cases cl <;> rcases ul with _ | mins <;>
    simp [parse_restrictions, appsRawOf, encodeApp, processApp, getRestr,
      exceptOk, pyGet, jIterate, lookupLast, pyGetD, jTruthy, primEq,
      pyInStr, jNum?, List.foldlM, List.foldl, Bind.bind, Except.bind,
      Pure.pure, Except.pure]

/-- **C8 counterexample.** As stated, the claim is false on the code: the
entry `c8Entry` is capability-flagged and classified `Limited` (neither
`Blocked` nor `AlwaysAllowed` — both output lists are empty), yet it is
not in the supervisable set, because the source excludes entries carrying
the always-allowed *flag* regardless of their assigned state. -/
theorem restriction_classification_counterexample :
    ¬ ((getRestr (parse_restrictions (appsRawOf [encodeApp c8Entry]))).supervisable
        ≠ [] ↔
      (c8Entry.canLimit = true ∧
        (getRestr (parse_restrictions (appsRawOf [encodeApp c8Entry]))).blocked
          = [] ∧
        (getRestr (parse_restrictions (appsRawOf [encodeApp c8Entry]))).always_allowed
          = [])) :=
  fun h => (h.mpr ⟨rfl, rfl, rfl⟩) rfl

/-- **C9 (amended).** For every raw input whose fields, where present,
carry the schema types (`apps` a list of processable app dicts,
`appUsageSessions` a list of session dicts whose `usage` strings do not
denote infinities), `parse_usage` returns without raising and its result
is sorted descending by `usage_seconds`; a session not dated today
contributes nothing to the result; and an unparsable duration string is
coerced to 0 seconds.  (On arbitrary raw dicts the function *can* raise —
see the counterexample.) -/
theorem parse_usage_safety (today : PyDate) (raw : JValue)
    (apps xs ys : List JValue) (s : JValue) (us : String) :
    (wellFormedUsageRaw raw = true →
      ∃ l, parse_usage today raw = .ok l ∧ usageSortedB l = true) ∧
    (sessionSkipped today s = true →
      parse_usage today (.obj [("apps", .arr apps),
        ("appUsageSessions", .arr (xs ++ s :: ys))]) =
      parse_usage today (.obj [("apps", .arr apps),
        ("appUsageSessions", .arr (xs ++ ys))])) ∧
    (pyFloat? (rstripS us) = none →
      parse_usage today (.obj [("appUsageSessions",
        .arr [mkUsageSession today us])]) =
      .ok [⟨.str "com.example", 0⟩]) := by
  refine ⟨?_, ?_, ?_⟩
  · -- (A) well-formed inputs: no raise, sorted output
    intro hwf
    cases raw with
    | obj fs =>
      unfold wellFormedUsageRaw at hwf
      simp only [Bool.and_eq_true] at hwf
      obtain ⟨happs, hsess⟩ := hwf
      unfold parse_usage
      dsimp only [pyGet, Bind.bind, Except.bind, jIterate]
      rcases ha : lookupLast fs "apps" with _ | av
      · dsimp only [Option.getD_none, jIterate]
        rcases hs' : lookupLast fs "appUsageSessions" with _ | sv
        · exact ⟨[], rfl, rfl⟩
        · rw [hs'] at hsess
          cases sv with
          | arr ss =>
            dsimp only [Option.getD_some, jIterate]
            obtain ⟨recs, hrecs⟩ := foldlM_ok ss [] fun s' hmem acc =>
              sessionStep_ok today [] s' (List.all_eq_true.mp hsess s' hmem) acc
            refine ⟨sortDescUsage recs, ?_, usageSortedB_sortDesc recs⟩
            rw [show buildPkgMap ([] : List JValue) =
              Except.ok ([] : List (JValue × JValue)) from rfl]
            dsimp only
            rw [hrecs]
            rfl
          | _ => exact Bool.noConfusion hsess
      · rw [ha] at happs
        cases av with
        | arr appsL =>
          dsimp only [Option.getD_some, jIterate]
          obtain ⟨mm, hmm⟩ := foldlM_ok appsL [] fun a hmem acc =>
            pkgMapStep_ok a (List.all_eq_true.mp happs a hmem) acc
          rw [show buildPkgMap appsL = .ok mm from hmm]
          dsimp only
          rcases hs' : lookupLast fs "appUsageSessions" with _ | sv
          · exact ⟨[], rfl, rfl⟩
          · rw [hs'] at hsess
            cases sv with
            | arr ss =>
              dsimp only [Option.getD_some, jIterate]
              obtain ⟨recs, hrecs⟩ := foldlM_ok ss [] fun s' hmem acc =>
                sessionStep_ok today mm s' (List.all_eq_true.mp hsess s' hmem) acc
              refine ⟨sortDescUsage recs, ?_, usageSortedB_sortDesc recs⟩
              rw [hrecs]
              rfl
            | _ => exact Bool.noConfusion hsess
        | _ => exact Bool.noConfusion happs
    | _ => exact absurd hwf (by simp [wellFormedUsageRaw])
  · -- (B) non-today sessions contribute nothing
    intro hsk
    unfold parse_usage
    rw [show pyGet (.obj [("apps", JValue.arr apps),
          ("appUsageSessions", JValue.arr (xs ++ s :: ys))]) "apps" (.arr []) =
        .ok (.arr apps) from rfl,
      show pyGet (.obj [("apps", JValue.arr apps),
          ("appUsageSessions", JValue.arr (xs ++ ys))]) "apps" (.arr []) =
        .ok (.arr apps) from rfl,
      show pyGet (.obj [("apps", JValue.arr apps),
          ("appUsageSessions", JValue.arr (xs ++ s :: ys))])
          "appUsageSessions" (.arr []) =
        .ok (.arr (xs ++ s :: ys)) from rfl,
      show pyGet (.obj [("apps", JValue.arr apps),
          ("appUsageSessions", JValue.arr (xs ++ ys))])
          "appUsageSessions" (.arr []) =
        .ok (.arr (xs ++ ys)) from rfl]
    simp only [Bind.bind, Except.bind, jIterate]
    rcases hb : buildPkgMap apps with e | mm
    · rfl
    · dsimp only
      rw [foldlM_session_skip today mm s
        (processSession_skipped today mm s hsk) xs ys []]
  · -- (C) unparsable durations are coerced to 0 seconds
    intro hpf
    have h0 : secondsOf (rstripS us) = .finite 0 := by
      unfold secondsOf; rw [hpf]
    simp [parse_usage, mkUsageSession, pyGet, lookupLast, jIterate,
      buildPkgMap, sessionStep, processSession, pyGetD, primEq, jNum?, h0,
      pyIntOfFloat, ratTrunc, pyDictGet, jHashable, sortDescUsage,
      insertDescUsage, List.foldl, List.foldlM, Bind.bind, Except.bind,
      Pure.pure, Except.pure, jTruthy]

/-- Witness for `parse_usage_safety`: the conftest-style response
`c4WitnessRaw` is well-formed and parses to a sorted singleton; a
yesterday-dated session is dropped; the unparsable duration string
`"abcs"` is coerced to 0. -/
theorem parse_usage_safety_witness :
    wellFormedUsageRaw c4WitnessRaw = true ∧
    (∃ l, parse_usage ⟨2026, 10, 12⟩ c4WitnessRaw = .ok l ∧
      usageSortedB l = true) ∧
    parse_usage ⟨2026, 10, 12⟩ (.obj [("apps", .arr []),
      ("appUsageSessions",
        .arr [mkUsageSession ⟨2000, 1, 1⟩ "9999s"])]) =
    parse_usage ⟨2026, 10, 12⟩ (.obj [("apps", .arr []),
      ("appUsageSessions", .arr [])]) ∧
    parse_usage ⟨2026, 10, 12⟩ (.obj [("appUsageSessions",
      .arr [mkUsageSession ⟨2026, 10, 12⟩ "abcs"])]) =
    .ok [⟨.str "com.example", 0⟩] := by
  have h := parse_usage_safety ⟨2026, 10, 12⟩ c4WitnessRaw []
    [] [] (mkUsageSession ⟨2000, 1, 1⟩ "9999s") "abcs"
  exact ⟨rfl, h.1 rfl, h.2.1 rfl, h.2.2 rfl⟩

/-- **C9 counterexample.** As stated — for *every* raw dictionary input —
the claim is false on the code: `{"apps": 5}` makes the dict comprehension
iterate over an integer, raising `TypeError` (and `{"appUsageSessions":
[{"usage": "infs", "date": <today>}]}` would raise `OverflowError` from
`int(float("inf"))`, which the `except ValueError` does not catch). -/
theorem parse_usage_safety_counterexample :
    parse_usage ⟨2026, 10, 12⟩ (.obj [("apps", .int 5)]) =
      .error .typeError ∧
    parse_usage ⟨2026, 10, 12⟩ (.obj [("appUsageSessions",
      .arr [mkUsageSession ⟨2026, 10, 12⟩ "infs"])]) =
      .error .overflowError :=
  ⟨rfl, rfl⟩

/-- **C5 counterexample.** As stated, the claim is false on the code: a
session whose first SAPISID-family cookie is expired is reported unusable
even though a later signing cookie (`APISID`, with no expiry recorded) is
present — `is_authenticated` never looks past the first signing cookie. -/
theorem session_usability_counterexample :
    is_authenticated 1000
        (some [⟨"SAPISID", "v", ".google.com", .int 500, .null⟩,
          ⟨"APISID", "w", ".google.com", .null, .null⟩]) = false ∧
    sapisidNames.contains "APISID" = true := by
  constructor
  · show isAuthLoop 1000 _ = false
    simp [isAuthLoop, sapisidNames, jTruthy, jNum?, cookieExpired]
    norm_num
  · decide

end FamilyLink
